import Mathlib

/-!
Shallow embedding of the multi-settle authorization/settlement engine of
openfacilitator: the authorization ledger (`packages/server/src/db/multisettle.ts`)
and the settlement HTTP routes (`routes/multisettle.ts`).

Modelling conventions:
* The SQLite tables `multisettle_signatures` and `multisettle_settlements` are
  lists of records; `SELECT ... WHERE id = ?` is `List.find?`, `UPDATE ... WHERE`
  is a `List.map` that rewrites the matching rows, `INSERT` appends, and
  `result.changes` is the number of matching rows.
* Decimal-string amounts (`BigInt(s)` / `toString()`) are modelled by their
  integer values (`Int`); `newRemaining === '0'` becomes `newRemaining == 0`,
  which agrees with `BigInt.toString` being canonical.
* `Date.now()` reads, fresh `nanoid()` ids, and the results of signature
  verification, payload extraction and on-chain calls are explicit parameters
  (the route reads the clock separately in its pre-checks and inside the
  reserve transaction, hence two clock parameters).
* Each route emits a trace of the store / chain events it performs, in order.
-/

namespace OpenFacilitator

/-- Lifecycle status of a multi-settle authorization (the `status` column of
`multisettle_signatures`). -/
inductive AuthStatus where
  | active
  | exhausted
  | expired
  | revoked
deriving DecidableEq

/-- The string stored in the `status` column. -/
def statusStr : AuthStatus → String
  | .active => "active"
  | .exhausted => "exhausted"
  | .expired => "expired"
  | .revoked => "revoked"

/-- Status of a settlement record (the `status` column of
`multisettle_settlements`). -/
inductive SettleStatus where
  | pending
  | success
  | failed
deriving DecidableEq

/-- A row of the `multisettle_signatures` table (`MultiSettleSignatureRecord`). -/
structure AuthRecord where
  id : String
  facilitator_id : String
  network : String
  asset : String
  from_address : String
  cap_amount : Int
  remaining_amount : Int
  valid_until : Int
  nonce : String
  signature : String
  payment_payload : String
  status : AuthStatus
  deposited : Bool
deriving DecidableEq

/-- A row of the `multisettle_settlements` table (`MultiSettleSettlementRecord`). -/
structure SettlementRecord where
  id : String
  signature_id : String
  facilitator_id : String
  pay_to : String
  amount : Int
  transaction_hash : Option String
  status : SettleStatus
  error_message : Option String
deriving DecidableEq

/-- The `multisettle_signatures` table. -/
abbrev AuthDB := List AuthRecord

/-- The `multisettle_settlements` table. -/
abbrev SettleDB := List SettlementRecord

/-- `getMultiSettleSignatureById`: `SELECT * FROM multisettle_signatures WHERE id = ?`. -/
def getMultiSettleSignatureById (db : AuthDB) (id : String) : Option AuthRecord :=
  db.find? (fun r => r.id == id)

/-- `getMultiSettleSignatureByNonce`:
`SELECT * FROM multisettle_signatures WHERE facilitator_id = ? AND nonce = ?`. -/
def getMultiSettleSignatureByNonce (db : AuthDB) (facilitatorId : String)
    (nonce : String) : Option AuthRecord :=
  db.find? (fun r => r.facilitator_id == facilitatorId && r.nonce == nonce)

/-- `UPDATE multisettle_signatures SET ... WHERE id = ?`: rewrite the rows whose
`id` matches. -/
def setWhereId (db : AuthDB) (id : String) (f : AuthRecord → AuthRecord) : AuthDB :=
  db.map (fun r => if r.id == id then f r else r)

/-- Input of `createMultiSettleSignature` (its `data` argument). -/
structure CreateSignatureData where
  facilitator_id : String
  network : String
  asset : String
  from_address : String
  cap_amount : Int
  valid_until : Int
  nonce : String
  signature : String
  payment_payload : String

/-- The row INSERTed by `createMultiSettleSignature`:
`remaining_amount = cap_amount`, `status = 'active'`, `deposited = 0`, payer
address lowercased. -/
def createdRow (id : String) (data : CreateSignatureData) : AuthRecord :=
  { id := id
    facilitator_id := data.facilitator_id
    network := data.network
    asset := data.asset
    from_address := data.from_address.toLower
    cap_amount := data.cap_amount
    remaining_amount := data.cap_amount
    valid_until := data.valid_until
    nonce := data.nonce
    signature := data.signature
    payment_payload := data.payment_payload
    status := AuthStatus.active
    deposited := false }

/-- `createMultiSettleSignature`: INSERT the row, then re-read it by id.  The
fresh `nanoid()` is the `id` parameter. -/
def createMultiSettleSignature (db : AuthDB) (id : String)
    (data : CreateSignatureData) : Option AuthRecord × AuthDB :=
  let db1 := db ++ [createdRow id data]
  (getMultiSettleSignatureById db1 id, db1)

/-- The table state after the success branch of the reserve transaction: write
the new remaining amount, and additionally set `status = 'exhausted'` when it is
zero. -/
def reserveSuccessDB (db : AuthDB) (id : String) (newRemaining : Int) : AuthDB :=
  let db1 := setWhereId db id (fun r => { r with remaining_amount := newRemaining })
  if newRemaining == 0 then
    setWhereId db1 id (fun r => { r with status := AuthStatus.exhausted })
  else db1

/-- `decrementRemainingAmount(signatureId, amount)`, the reserve transaction.
`now` is the `Math.floor(Date.now() / 1000)` read inside the transaction. -/
def decrementRemainingAmount (db : AuthDB) (now : Int) (signatureId : String)
    (amount : Int) : Option AuthRecord × AuthDB :=
  match getMultiSettleSignatureById db signatureId with
  | none => (none, db)
  | some signature =>
    if signature.status != AuthStatus.active then
      (none, db)
    else if signature.valid_until < now then
      (none, setWhereId db signatureId (fun r => { r with status := AuthStatus.expired }))
    else if signature.remaining_amount < amount then
      (none, db)
    else
      let newRemaining := signature.remaining_amount - amount
      let db1 := setWhereId db signatureId
        (fun r => { r with remaining_amount := newRemaining })
      let db2 :=
        if newRemaining == 0 then
          setWhereId db1 signatureId (fun r => { r with status := AuthStatus.exhausted })
        else db1
      (getMultiSettleSignatureById db2 signatureId, db2)

/-- `revokeMultiSettleSignature`:
`UPDATE ... SET status = 'revoked' WHERE id = ? AND status = 'active'`;
returns `changes > 0`. -/
def revokeMultiSettleSignature (db : AuthDB) (signatureId : String) : Bool × AuthDB :=
  let hits := db.filter (fun r => r.id == signatureId && r.status == AuthStatus.active)
  let db1 := db.map (fun r =>
    if r.id == signatureId && r.status == AuthStatus.active then
      { r with status := AuthStatus.revoked }
    else r)
  (hits.length > 0, db1)

/-- `markSignatureDeposited`: `UPDATE ... SET deposited = 1 WHERE id = ?`;
returns `changes > 0`. -/
def markSignatureDeposited (db : AuthDB) (signatureId : String) : Bool × AuthDB :=
  let hits := db.filter (fun r => r.id == signatureId)
  let db1 := setWhereId db signatureId (fun r => { r with deposited := true })
  (hits.length > 0, db1)

/-- `getMultiSettleSettlementById`. -/
def getMultiSettleSettlementById (db : SettleDB) (id : String) : Option SettlementRecord :=
  db.find? (fun r => r.id == id)

/-- Input of `createMultiSettleSettlement`. -/
structure CreateSettlementData where
  signature_id : String
  facilitator_id : String
  pay_to : String
  amount : Int
  transaction_hash : Option String
  status : SettleStatus
  error_message : Option String

/-- The row INSERTed by `createMultiSettleSettlement`: recipient lowercased. -/
def settlementRow (id : String) (data : CreateSettlementData) : SettlementRecord :=
  { id := id
    signature_id := data.signature_id
    facilitator_id := data.facilitator_id
    pay_to := data.pay_to.toLower
    amount := data.amount
    transaction_hash := data.transaction_hash
    status := data.status
    error_message := data.error_message }

/-- `createMultiSettleSettlement`: INSERT the row, then re-read by id.  The
fresh `nanoid()` is the `id` parameter. -/
def createMultiSettleSettlement (db : SettleDB) (id : String)
    (data : CreateSettlementData) : Option SettlementRecord × SettleDB :=
  let db1 := db ++ [settlementRow id data]
  (getMultiSettleSettlementById db1 id, db1)

/-- The row rewrite performed by `updateMultiSettleSettlementStatus`: sets
`status`; sets `transaction_hash` only when that argument is not `undefined`,
likewise `error_message`. -/
def appliedUpdate (r : SettlementRecord) (status : SettleStatus)
    (transactionHash : Option String) (errorMessage : Option String) :
    SettlementRecord :=
  let r1 := { r with status := status }
  let r2 := match transactionHash with
    | some t => { r1 with transaction_hash := some t }
    | none => r1
  match errorMessage with
  | some e => { r2 with error_message := some e }
  | none => r2

/-- `updateMultiSettleSettlementStatus(id, status, transactionHash?, errorMessage?)`:
UPDATE the matching rows; returns `null` when `changes === 0` (no row with this
id), else the re-read row. -/
def updateMultiSettleSettlementStatus (db : SettleDB) (id : String)
    (status : SettleStatus) (transactionHash : Option String)
    (errorMessage : Option String) : Option SettlementRecord × SettleDB :=
  let db1 := db.map (fun r =>
    if r.id == id then appliedUpdate r status transactionHash errorMessage else r)
  let hits := db.filter (fun r => r.id == id)
  if hits.length == 0 then (none, db1)
  else (getMultiSettleSettlementById db1 id, db1)

/-! ## Route layer (`routes/multisettle.ts`) -/

/-- `networkToChainId`: the lookup table of supported networks. -/
def networkToChainId (network : String) : Option Nat :=
  if network == "base" then some 8453
  else if network == "base-sepolia" then some 84532
  else if network == "ethereum" then some 1
  else if network == "sepolia" then some 11155111
  else none

/-- `isSolanaNetwork` check in the settle route. -/
def isSolanaNetwork (network : String) : Bool :=
  network == "solana" || network == "solana-mainnet" || network == "solana-devnet"

/-- Result of `extractAuthorizationFromPayload` (the fields the routes use). -/
structure AuthDetails where
  from_addr : String
  to_addr : String
  nonce : String
  value : Int
  signature : String
deriving DecidableEq

/-- Result of an on-chain call (`executeERC3009Settlement` / `transferTokens`). -/
structure ChainResult where
  success : Bool
  transactionHash : Option String
  errorMessage : Option String
deriving DecidableEq

/-- Result of `checkFacilitatorBalance`. -/
structure BalanceResult where
  sufficient : Bool
  balance : Int
deriving DecidableEq

/-- JavaScript `x || fallback` on an optional string (`undefined` and `''` are
falsy). -/
def jsOr (o : Option String) (fallback : String) : String :=
  match o with
  | none => fallback
  | some s => if s == "" then fallback else s

/-- JavaScript template interpolation of a `string | undefined` value. -/
def jsShow (o : Option String) : String :=
  match o with
  | none => "undefined"
  | some s => s

/-- Events a settle request performs, in order: the reserve transaction with its
result, settlement-record creation and status updates (with the status written),
and the three kinds of on-chain calls. -/
inductive Ev where
  | reserveEv (result : Option AuthRecord)
  | screateEv (sid : String) (st : SettleStatus)
  | supdateEv (sid : String) (st : SettleStatus)
  | depositEv
  | balCheckEv
  | disburseEv
deriving DecidableEq

/-- Whether an event is an on-chain call. -/
def Ev.isChain : Ev → Bool
  | .depositEv => true
  | .balCheckEv => true
  | .disburseEv => true
  | _ => false

/-- Body of `POST /multisettle/settle` after schema validation. -/
structure SettleRequest where
  authorizationId : String
  payTo : String
  amount : Int

/-- Environment of one settle request: the two clock reads (the route checks
expiry at `nowPre`, the reserve transaction reads the clock again at `nowRes`),
wallet availability, the fresh settlement id, and the outcomes of payload
extraction and the on-chain calls. -/
structure SettleEnv where
  nowPre : Int
  nowRes : Int
  keyPresent : Bool
  decryptOk : Bool
  freshSettlementId : String
  extractDetails : Option AuthDetails
  depositResult : ChainResult
  balanceResult : BalanceResult
  transferResult : ChainResult

/-- JSON body the settle route responds with (the fields the spec talks about). -/
structure SettleResponse where
  success : Bool
  errorMessage : Option String := none
  remainingAmount : Option Int := none
  transactionHash : Option String := none
deriving DecidableEq

/-- Result of one settle request: response, both tables, and the event trace. -/
structure SettleOutcome where
  resp : SettleResponse
  dbA : AuthDB
  dbS : SettleDB
  trace : List Ev
deriving DecidableEq

/-- The balance-check / disburse tail of the settle route (runs once funds are
deposited): preflight the facilitator balance, then transfer, recording the
outcome on the settlement row. -/
def disbursePhase (updatedSignature : AuthRecord) (settlement : SettlementRecord)
    (dbA : AuthDB) (dbS : SettleDB) (req : SettleRequest) (env : SettleEnv) :
    SettleOutcome :=
  if env.balanceResult.sufficient = false then
    let dbS1 := (updateMultiSettleSettlementStatus dbS settlement.id .failed none
      (some ("Insufficient facilitator balance: " ++ toString env.balanceResult.balance
        ++ " < " ++ toString req.amount))).2
    { resp := { success := false
                errorMessage := some "Facilitator has insufficient balance for transfer"
                remainingAmount := some updatedSignature.remaining_amount }
      dbA := dbA, dbS := dbS1
      trace := [Ev.balCheckEv, Ev.supdateEv settlement.id .failed] }
  else if env.transferResult.success then
    let dbS1 := (updateMultiSettleSettlementStatus dbS settlement.id .success
      env.transferResult.transactionHash none).2
    { resp := { success := true
                transactionHash := env.transferResult.transactionHash
                remainingAmount := some updatedSignature.remaining_amount }
      dbA := dbA, dbS := dbS1
      trace := [Ev.balCheckEv, Ev.disburseEv, Ev.supdateEv settlement.id .success] }
  else
    let dbS1 := (updateMultiSettleSettlementStatus dbS settlement.id .failed none
      env.transferResult.errorMessage).2
    { resp := { success := false
                errorMessage := env.transferResult.errorMessage
                remainingAmount := some updatedSignature.remaining_amount }
      dbA := dbA, dbS := dbS1
      trace := [Ev.balCheckEv, Ev.disburseEv, Ev.supdateEv settlement.id .failed] }

/-- The on-chain section of the settle route (the `try` block after the
settlement row exists): deposit first if the snapshot says funds were never
deposited, then hand over to `disbursePhase`. -/
def chainPhase (signature updatedSignature : AuthRecord)
    (settlement : SettlementRecord) (dbA : AuthDB) (dbS : SettleDB)
    (req : SettleRequest) (env : SettleEnv) : SettleOutcome :=
  if signature.deposited = false then
    match env.extractDetails with
    | none =>
      let dbS1 := (updateMultiSettleSettlementStatus dbS settlement.id .failed none
        (some "Failed to extract authorization")).2
      { resp := { success := false
                  errorMessage := some "Failed to extract authorization from stored payload" }
        dbA := dbA, dbS := dbS1
        trace := [Ev.supdateEv settlement.id .failed] }
    | some _ =>
      if env.depositResult.success = false then
        let dbS1 := (updateMultiSettleSettlementStatus dbS settlement.id .failed none
          env.depositResult.errorMessage).2
        { resp := { success := false
                    errorMessage := some ("Failed to deposit funds: "
                      ++ jsShow env.depositResult.errorMessage)
                    remainingAmount := some updatedSignature.remaining_amount }
          dbA := dbA, dbS := dbS1
          trace := [Ev.depositEv, Ev.supdateEv settlement.id .failed] }
      else
        let dbA1 := (markSignatureDeposited dbA req.authorizationId).2
        let out := disbursePhase updatedSignature settlement dbA1 dbS req env
        { out with trace := Ev.depositEv :: out.trace }
  else
    disbursePhase updatedSignature settlement dbA dbS req env

/-- The reserve-then-record section of the settle route (everything after the
pre-checks pass): atomically decrement first, create the `pending` settlement
row, then run the on-chain phase. -/
def reservePhase (signature : AuthRecord) (dbA : AuthDB) (dbS : SettleDB)
    (fid : String) (req : SettleRequest) (env : SettleEnv) : SettleOutcome :=
  match decrementRemainingAmount dbA env.nowRes req.authorizationId req.amount with
  | (none, dbA1) =>
    { resp := { success := false
                errorMessage := some "Failed to reserve amount - insufficient balance or authorization is no longer active"
                remainingAmount := some signature.remaining_amount }
      dbA := dbA1, dbS := dbS, trace := [Ev.reserveEv none] }
  | (some updatedSignature, dbA1) =>
    match createMultiSettleSettlement dbS env.freshSettlementId
      { signature_id := req.authorizationId
        facilitator_id := fid
        pay_to := req.payTo
        amount := req.amount
        transaction_hash := none
        status := SettleStatus.pending
        error_message := none } with
    | (none, dbS1) =>
      { resp := { success := false
                  errorMessage := some "Internal error creating settlement record" }
        dbA := dbA1, dbS := dbS1
        trace := [Ev.reserveEv (some updatedSignature),
                  Ev.screateEv env.freshSettlementId .pending] }
    | (some settlement, dbS1) =>
      let out := chainPhase signature updatedSignature settlement dbA1 dbS1 req env
      { out with
        trace := Ev.reserveEv (some updatedSignature)
          :: Ev.screateEv env.freshSettlementId .pending :: out.trace }

/-- `POST /multisettle/settle` after schema validation (`fid` is the
authenticated facilitator). -/
def settle (dbA : AuthDB) (dbS : SettleDB) (fid : String) (req : SettleRequest)
    (env : SettleEnv) : SettleOutcome :=
  match getMultiSettleSignatureById dbA req.authorizationId with
  | none =>
    { resp := { success := false, errorMessage := some "Authorization not found" }
      dbA := dbA, dbS := dbS, trace := [] }
  | some signature =>
    if signature.facilitator_id != fid then
      { resp := { success := false
                  errorMessage := some "Authorization does not belong to this facilitator" }
        dbA := dbA, dbS := dbS, trace := [] }
    else if signature.status != AuthStatus.active then
      { resp := { success := false
                  errorMessage := some ("Authorization is " ++ statusStr signature.status)
                  remainingAmount := some signature.remaining_amount }
        dbA := dbA, dbS := dbS, trace := [] }
    else if signature.valid_until < env.nowPre then
      { resp := { success := false
                  errorMessage := some "Authorization has expired"
                  remainingAmount := some signature.remaining_amount }
        dbA := dbA, dbS := dbS, trace := [] }
    else if signature.remaining_amount < req.amount then
      { resp := { success := false
                  errorMessage := some ("Amount " ++ toString req.amount
                    ++ " exceeds remaining balance " ++ toString signature.remaining_amount)
                  remainingAmount := some signature.remaining_amount }
        dbA := dbA, dbS := dbS, trace := [] }
    else if req.amount ≤ 0 then
      { resp := { success := false
                  errorMessage := some "Amount must be greater than 0"
                  remainingAmount := some signature.remaining_amount }
        dbA := dbA, dbS := dbS, trace := [] }
    else
      match networkToChainId signature.network with
      | none =>
        { resp := { success := false
                    errorMessage := some ("Unsupported network: " ++ signature.network) }
          dbA := dbA, dbS := dbS, trace := [] }
      | some _ =>
        if isSolanaNetwork signature.network then
          { resp := { success := false
                      errorMessage := some "Multi-settle for Solana is not yet supported" }
            dbA := dbA, dbS := dbS, trace := [] }
        else if env.keyPresent = false then
          { resp := { success := false, errorMessage := some "EVM wallet not configured" }
            dbA := dbA, dbS := dbS, trace := [] }
        else if env.decryptOk = false then
          { resp := { success := false, errorMessage := some "Failed to decrypt wallet" }
            dbA := dbA, dbS := dbS, trace := [] }
        else
          reservePhase signature dbA dbS fid req env

/-- Body of `POST /multisettle/authorize` after schema validation. -/
structure AuthorizeRequest where
  capAmount : Int
  validUntil : Int
  network : String
  asset : String

/-- Environment of one authorize request: the verifier's verdict, the result of
`extractAuthorizationFromPayload`, the normalized payload string, the clock, and
the fresh record id. -/
structure AuthorizeEnv where
  verifyValid : Bool
  invalidReason : Option String
  details : Option AuthDetails
  payloadStr : String
  now : Int
  freshId : String

/-- JSON body the authorize route responds with. -/
structure AuthorizeResponse where
  success : Bool
  errorMessage : Option String := none
  authorizationId : Option String := none
  capAmount : Option Int := none
  remainingAmount : Option Int := none
  validUntil : Option Int := none
  nonce : Option String := none
  deposited : Option Bool := none
deriving DecidableEq

/-- The `data` argument the authorize route passes to
`createMultiSettleSignature`. -/
def authCreateData (fid : String) (req : AuthorizeRequest) (d : AuthDetails)
    (env : AuthorizeEnv) : CreateSignatureData :=
  { facilitator_id := fid
    network := req.network
    asset := req.asset
    from_address := d.from_addr
    cap_amount := req.capAmount
    valid_until := req.validUntil
    nonce := d.nonce
    signature := d.signature
    payment_payload := env.payloadStr }

/-- `POST /multisettle/authorize` after schema validation: verify, extract,
nonce-idempotency check, validity checks, then create. -/
def authorize (db : AuthDB) (fid : String) (req : AuthorizeRequest)
    (env : AuthorizeEnv) : AuthorizeResponse × AuthDB :=
  if env.verifyValid = false then
    ({ success := false, errorMessage := some (jsOr env.invalidReason "Invalid signature") }, db)
  else
    match env.details with
    | none =>
      ({ success := false
         errorMessage := some "Failed to extract authorization from payload" }, db)
    | some d =>
      match getMultiSettleSignatureByNonce db fid d.nonce with
      | some existingAuth =>
        if existingAuth.status = AuthStatus.active then
          ({ success := true
             authorizationId := some existingAuth.id
             capAmount := some existingAuth.cap_amount
             remainingAmount := some existingAuth.remaining_amount
             validUntil := some existingAuth.valid_until
             nonce := some existingAuth.nonce
             deposited := some existingAuth.deposited }, db)
        else
          ({ success := false
             errorMessage := some ("Authorization with this nonce already exists and is "
               ++ statusStr existingAuth.status) }, db)
      | none =>
        if req.validUntil ≤ env.now then
          ({ success := false, errorMessage := some "validUntil must be in the future" }, db)
        else if d.value != req.capAmount then
          ({ success := false
             errorMessage := some ("Cap amount (" ++ toString req.capAmount
               ++ ") must match authorization value (" ++ toString d.value ++ ")") }, db)
        else
          match createMultiSettleSignature db env.freshId (authCreateData fid req d env) with
          | (none, db1) =>
            ({ success := false, errorMessage := some "Failed to create authorization" }, db1)
          | (some signature, db1) =>
            ({ success := true
               authorizationId := some signature.id
               capAmount := some signature.cap_amount
               remainingAmount := some signature.remaining_amount
               validUntil := some signature.valid_until
               nonce := some signature.nonce
               deposited := some false }, db1)

/-! ## Sequences of store operations against one authorization (for the
ledger invariants) -/

/-- One store operation against a fixed authorization id: a reserve (with its
own clock read and amount), a revocation, or the deposited-flag flip. -/
inductive StoreOp where
  | reserveOp (now : Int) (amount : Int)
  | revokeOp
  | markDepositedOp

/-- Run one store operation against the record with id `id`. -/
def runOp (id : String) (db : AuthDB) : StoreOp → AuthDB
  | .reserveOp now amount => (decrementRemainingAmount db now id amount).2
  | .revokeOp => (revokeMultiSettleSignature db id).2
  | .markDepositedOp => (markSignatureDeposited db id).2

/-- Run a sequence of store operations, collecting the sum of the amounts of the
reserves that returned a record (the successfully reserved total). -/
def runCollect (id : String) : AuthDB → List StoreOp → AuthDB × Int
  | db, [] => (db, 0)
  | db, StoreOp.reserveOp now amount :: ops =>
    let step := decrementRemainingAmount db now id amount
    let rest := runCollect id step.2 ops
    (rest.1, (if step.1.isSome then amount else 0) + rest.2)
  | db, StoreOp.revokeOp :: ops =>
    runCollect id (revokeMultiSettleSignature db id).2 ops
  | db, StoreOp.markDepositedOp :: ops =>
    runCollect id (markSignatureDeposited db id).2 ops

/-- The amount an operation tries to reserve (zero for the other operations). -/
def opAmount : StoreOp → Int
  | .reserveOp _ amount => amount
  | _ => 0

/-- All reserve amounts in the sequence are nonnegative (amounts are unsigned
decimal strings in the data model). -/
def opsNonneg (ops : List StoreOp) : Prop :=
  ∀ op ∈ ops, 0 ≤ opAmount op

/-- Whether an event is a settlement-status update. -/
def isUpdate : Ev → Bool
  | .supdateEv _ _ => true
  | _ => false

/-- The record produced by a successful reserve of `amount` on `r`: remaining
decremented, status flipped to `exhausted` exactly when the new remaining is
zero. -/
def appliedReserve (r : AuthRecord) (amount : Int) : AuthRecord :=
  { r with
    remaining_amount := r.remaining_amount - amount
    status := if r.remaining_amount - amount == 0 then AuthStatus.exhausted else r.status }

/-- The pending settlement row the settle route inserts after a successful
reservation. -/
def pendingRow (fid : String) (req : SettleRequest) (env : SettleEnv) :
    SettlementRecord :=
  settlementRow env.freshSettlementId
    { signature_id := req.authorizationId
      facilitator_id := fid
      pay_to := req.payTo
      amount := req.amount
      transaction_hash := none
      status := SettleStatus.pending
      error_message := none }

/-! ## Concrete fixtures for evaluating the theorems -/

/-- A concrete active authorization (cap 200, valid until 1000). -/
def sampleAuth : AuthRecord :=
  { id := "auth1"
    facilitator_id := "fac1"
    network := "base"
    asset := "0xusdc"
    from_address := "0xpayer"
    cap_amount := 200
    remaining_amount := 200
    valid_until := 1000
    nonce := "n1"
    signature := "sig1"
    payment_payload := "pp1"
    status := AuthStatus.active
    deposited := false }

/-- Concrete extracted payload details matching `sampleAuth`. -/
def sampleDetails : AuthDetails :=
  { from_addr := "0xPayer"
    to_addr := "0xFac"
    nonce := "n1"
    value := 200
    signature := "sig1" }

/-- A concrete settle request against `sampleAuth`. -/
def sampleReq : SettleRequest :=
  { authorizationId := "auth1", payTo := "0xrecip", amount := 50 }

/-- A concrete settle environment where every external step succeeds. -/
def sampleEnv : SettleEnv :=
  { nowPre := 10
    nowRes := 10
    keyPresent := true
    decryptOk := true
    freshSettlementId := "set1"
    extractDetails := some sampleDetails
    depositResult := { success := true, transactionHash := some "0xdep", errorMessage := none }
    balanceResult := { sufficient := true, balance := 1000 }
    transferResult := { success := true, transactionHash := some "0xtx", errorMessage := none } }

/-- A concrete authorize request (cap 200, valid until 1000). -/
def sampleAuthReq : AuthorizeRequest :=
  { capAmount := 200, validUntil := 1000, network := "base", asset := "0xusdc" }

/-- A concrete authorize environment: valid signature, fresh id `auth1`. -/
def sampleAuthEnv : AuthorizeEnv :=
  { verifyValid := true
    invalidReason := none
    details := some sampleDetails
    payloadStr := "pp1"
    now := 10
    freshId := "auth1" }

/-- A concrete settlement row in the `success` state. -/
def sampleSettlement : SettlementRecord :=
  { id := "s1"
    signature_id := "auth1"
    facilitator_id := "fac1"
    pay_to := "0xrecip"
    amount := 50
    transaction_hash := some "0xtx"
    status := SettleStatus.success
    error_message := none }

/-! ## Lemmas about the store primitives -/

theorem find_map_ite {α : Type} (p q : α → Bool) (g : α → α)
    (h : ∀ r, p (if q r then g r else r) = p r) :
    ∀ db : List α, ((db.map fun r => if q r then g r else r).find? p)
      = (db.find? p).map fun r => if q r then g r else r := by
  intro db
  induction db with
  | nil => rfl
  | cons a l ih =>
    cases hpa : p a with
    | true => simp [List.find?_cons, h a, hpa]
    | false => simp [List.find?_cons, h a, hpa, ih]

theorem find_append {α : Type} (p : α → Bool) (l1 l2 : List α) :
    (l1 ++ l2).find? p = ((l1.find? p).orElse fun _ => l2.find? p) := by
  induction l1 with
  | nil => simp
  | cons a l ih => cases hpa : p a <;> simp [List.find?_cons, hpa, ih]

theorem map_eq_self_of_no_match {α : Type} (q : α → Bool) (g : α → α)
    (l : List α) (h : ∀ r ∈ l, q r = false) :
    (l.map fun r => if q r then g r else r) = l := by
  induction l with
  | nil => rfl
  | cons a t ih =>
    have ha := h a (List.mem_cons_self a t)
    simp [ha, ih (fun r hr => h r (List.mem_cons_of_mem a hr))]

theorem getById_setWhereId (db : AuthDB) (id : String) (f : AuthRecord → AuthRecord)
    (hf : ∀ r, (f r).id = r.id) :
    getMultiSettleSignatureById (setWhereId db id f) id
      = (getMultiSettleSignatureById db id).map (fun r => if r.id == id then f r else r) := by
  unfold getMultiSettleSignatureById setWhereId
  exact find_map_ite _ _ _
    (fun r => by by_cases hq : (r.id == id) = true <;> simp [hq, hf]) db

theorem getById_setWhereId_found (db : AuthDB) (id : String)
    (f : AuthRecord → AuthRecord) (hf : ∀ r, (f r).id = r.id) (r : AuthRecord)
    (hr : getMultiSettleSignatureById db id = some r) :
    getMultiSettleSignatureById (setWhereId db id f) id = some (f r) := by
  have hr' : db.find? (fun s => s.id == id) = some r := hr
  have hid := List.find?_some hr'
  rw [getById_setWhereId db id f hf, hr]
  dsimp only [Option.map]
  rw [if_pos hid]

theorem decrement_missing (db : AuthDB) (now : Int) (id : String) (amount : Int)
    (h : getMultiSettleSignatureById db id = none) :
    decrementRemainingAmount db now id amount = (none, db) := by
  unfold decrementRemainingAmount
  rw [h]

theorem decrement_not_active (db : AuthDB) (now : Int) (id : String) (amount : Int)
    (r : AuthRecord) (hr : getMultiSettleSignatureById db id = some r)
    (hs : r.status ≠ AuthStatus.active) :
    decrementRemainingAmount db now id amount = (none, db) := by
  unfold decrementRemainingAmount
  rw [hr]
  simp [hs]

theorem decrement_expired (db : AuthDB) (now : Int) (id : String) (amount : Int)
    (r : AuthRecord) (hr : getMultiSettleSignatureById db id = some r)
    (hs : r.status = AuthStatus.active) (he : r.valid_until < now) :
    decrementRemainingAmount db now id amount
      = (none, setWhereId db id (fun s => { s with status := AuthStatus.expired })) := by
  unfold decrementRemainingAmount
  rw [hr]
  simp [hs, he]

theorem decrement_insufficient (db : AuthDB) (now : Int) (id : String) (amount : Int)
    (r : AuthRecord) (hr : getMultiSettleSignatureById db id = some r)
    (hs : r.status = AuthStatus.active) (he : ¬ r.valid_until < now)
    (hlt : r.remaining_amount < amount) :
    decrementRemainingAmount db now id amount = (none, db) := by
  unfold decrementRemainingAmount
  rw [hr]
  simp [hs, he, hlt]

theorem getById_reserveSuccessDB (db : AuthDB) (id : String) (newRemaining : Int)
    (r : AuthRecord) (hr : getMultiSettleSignatureById db id = some r) :
    getMultiSettleSignatureById (reserveSuccessDB db id newRemaining) id
      = some ({ r with remaining_amount := newRemaining,
                       status := (if newRemaining == 0 then AuthStatus.exhausted else r.status) }) := by
  unfold reserveSuccessDB
  have h1 := getById_setWhereId_found db id
    (fun s => { s with remaining_amount := newRemaining }) (fun s => rfl) r hr
  by_cases hz : (newRemaining == 0) = true
  · rw [if_pos hz]
    have h2 := getById_setWhereId_found _ id
      (fun s => { s with status := AuthStatus.exhausted }) (fun s => rfl) _ h1
    rw [h2, if_pos hz]
  · rw [if_neg hz]
    have hst : (if (newRemaining == 0) = true then AuthStatus.exhausted else r.status)
        = r.status := if_neg hz
    rw [hst, h1]

theorem decrement_success (db : AuthDB) (now : Int) (id : String) (amount : Int)
    (r : AuthRecord) (hr : getMultiSettleSignatureById db id = some r)
    (hs : r.status = AuthStatus.active) (he : ¬ r.valid_until < now)
    (hle : amount ≤ r.remaining_amount) :
    decrementRemainingAmount db now id amount
      = (some (appliedReserve r amount),
         reserveSuccessDB db id (r.remaining_amount - amount)) := by
  have hnlt : ¬ r.remaining_amount < amount := Int.not_lt.mpr hle
  have hc1 : ¬ ((r.status != AuthStatus.active) = true) := by simp [hs]
  have hlook := getById_reserveSuccessDB db id (r.remaining_amount - amount) r hr
  unfold decrementRemainingAmount
  rw [hr]
  dsimp only
  rw [if_neg hc1, if_neg he, if_neg hnlt]
  show (getMultiSettleSignatureById
      (reserveSuccessDB db id (r.remaining_amount - amount)) id,
    reserveSuccessDB db id (r.remaining_amount - amount)) = _
  rw [hlook]
  rfl

theorem getById_revoke (db : AuthDB) (id : String) (r : AuthRecord)
    (hr : getMultiSettleSignatureById db id = some r) :
    getMultiSettleSignatureById (revokeMultiSettleSignature db id).2 id
      = some (if r.status = AuthStatus.active
              then { r with status := AuthStatus.revoked } else r) := by
  have hr' : db.find? (fun s => s.id == id) = some r := hr
  have hid := List.find?_some hr'
  have hmap := find_map_ite (fun s : AuthRecord => s.id == id)
    (fun s => s.id == id && s.status == AuthStatus.active)
    (fun s => { s with status := AuthStatus.revoked })
    (fun s => by
      by_cases hq : (s.id == id && s.status == AuthStatus.active) = true <;> simp [hq]) db
  show (db.map _).find? _ = _
  rw [hmap, hr']
  dsimp only [Option.map]
  by_cases hs : r.status = AuthStatus.active
  · rw [if_pos (by simp [hid, hs]), if_pos hs]
  · rw [if_neg (by simp [hs]), if_neg hs]

theorem revoke_flag_of_active (db : AuthDB) (id : String) (r : AuthRecord)
    (hr : getMultiSettleSignatureById db id = some r)
    (hs : r.status = AuthStatus.active) :
    (revokeMultiSettleSignature db id).1 = true := by
  have hr' : db.find? (fun s => s.id == id) = some r := hr
  have hid := List.find?_some hr'
  have hmem : r ∈ db := List.mem_of_find?_eq_some hr'
  have hfil : r ∈ db.filter (fun s => s.id == id && s.status == AuthStatus.active) :=
    List.mem_filter.mpr ⟨hmem, by simp [hid, hs]⟩
  show decide (0 < _) = true
  exact decide_eq_true (List.length_pos.mpr (List.ne_nil_of_mem hfil))

theorem revoke_flag_of_inactive (db : AuthDB) (id : String)
    (hno : ∀ s ∈ db, s.id = id → s.status ≠ AuthStatus.active) :
    (revokeMultiSettleSignature db id).1 = false := by
  have hfil : db.filter (fun s => s.id == id && s.status == AuthStatus.active) = [] := by
    rw [List.filter_eq_nil_iff]
    intro a ha
    by_cases hida : a.id = id
    · simp [hida, hno a ha hida]
    · simp [hida]
  show decide (0 < _) = false
  rw [hfil]
  rfl

theorem revoke_db_of_inactive (db : AuthDB) (id : String)
    (hno : ∀ s ∈ db, s.id = id → s.status ≠ AuthStatus.active) :
    (revokeMultiSettleSignature db id).2 = db := by
  show db.map _ = db
  refine map_eq_self_of_no_match _ _ db (fun s hsdb => ?_)
  by_cases hida : s.id = id
  · simp [hida, hno s hsdb hida]
  · simp [hida]

theorem getById_markDeposited (db : AuthDB) (id : String) (r : AuthRecord)
    (hr : getMultiSettleSignatureById db id = some r) :
    getMultiSettleSignatureById (markSignatureDeposited db id).2 id
      = some ({ r with deposited := true }) := by
  show getMultiSettleSignatureById
    (setWhereId db id (fun s => { s with deposited := true })) id = _
  exact getById_setWhereId_found db id (fun s => { s with deposited := true })
    (fun s => rfl) r hr

theorem create_fresh (db : AuthDB) (id : String) (data : CreateSignatureData)
    (hfresh : getMultiSettleSignatureById db id = none) :
    createMultiSettleSignature db id data
      = (some (createdRow id data), db ++ [createdRow id data]) := by
  unfold createMultiSettleSignature
  have hfresh' : db.find? (fun s => s.id == id) = none := hfresh
  show (getMultiSettleSignatureById (db ++ [createdRow id data]) id, _) = _
  unfold getMultiSettleSignatureById
  rw [find_append, hfresh']
  simp [List.find?, createdRow]

theorem getByNonce_append (db : AuthDB) (fid nonce : String) (row : AuthRecord)
    (hmiss : getMultiSettleSignatureByNonce db fid nonce = none)
    (hfid : row.facilitator_id = fid) (hn : row.nonce = nonce) :
    getMultiSettleSignatureByNonce (db ++ [row]) fid nonce = some row := by
  have hmiss' : db.find? (fun s => s.facilitator_id == fid && s.nonce == nonce) = none := hmiss
  unfold getMultiSettleSignatureByNonce
  rw [find_append, hmiss']
  simp [List.find?, hfid, hn]

theorem appliedUpdate_id (r : SettlementRecord) (st : SettleStatus)
    (tx err : Option String) : (appliedUpdate r st tx err).id = r.id := by
  unfold appliedUpdate
  cases tx <;> cases err <;> rfl

theorem getSById_map_update (db : SettleDB) (id : String) (st : SettleStatus)
    (tx err : Option String) (r : SettlementRecord)
    (hr : getMultiSettleSettlementById db id = some r) :
    getMultiSettleSettlementById
        (db.map fun s => if s.id == id then appliedUpdate s st tx err else s) id
      = some (appliedUpdate r st tx err) := by
  have hr' : db.find? (fun s => s.id == id) = some r := hr
  have hid := List.find?_some hr'
  have hmap := find_map_ite (fun s : SettlementRecord => s.id == id)
    (fun s => s.id == id) (fun s => appliedUpdate s st tx err)
    (fun s => by
      by_cases hq : (s.id == id) = true <;> simp [hq, appliedUpdate_id]) db
  show (db.map _).find? _ = _
  rw [hmap, hr']
  dsimp only [Option.map]
  rw [if_pos hid]

theorem updateStatus_found (db : SettleDB) (id : String) (st : SettleStatus)
    (tx err : Option String) (r : SettlementRecord)
    (hr : getMultiSettleSettlementById db id = some r) :
    updateMultiSettleSettlementStatus db id st tx err
      = (some (appliedUpdate r st tx err),
         db.map fun s => if s.id == id then appliedUpdate s st tx err else s) := by
  have hr' : db.find? (fun s => s.id == id) = some r := hr
  have hid := List.find?_some hr'
  have hmem : r ∈ db := List.mem_of_find?_eq_some hr'
  have hfil : r ∈ db.filter (fun s => s.id == id) := List.mem_filter.mpr ⟨hmem, hid⟩
  have hlen : ¬ ((db.filter fun s => s.id == id).length == 0) = true := by
    simp only [beq_iff_eq, List.length_eq_zero]
    exact fun hnil => List.ne_nil_of_mem hfil hnil
  unfold updateMultiSettleSettlementStatus
  rw [if_neg hlen]
  rw [getSById_map_update db id st tx err r hr]

theorem updateStatus_missing (db : SettleDB) (id : String) (st : SettleStatus)
    (tx err : Option String)
    (hmiss : getMultiSettleSettlementById db id = none) :
    updateMultiSettleSettlementStatus db id st tx err = (none, db) := by
  have hmiss' : db.find? (fun s => s.id == id) = none := hmiss
  have hall := List.find?_eq_none.mp hmiss'
  have hfil : db.filter (fun s => s.id == id) = [] := by
    rw [List.filter_eq_nil_iff]
    exact fun a ha => hall a ha
  have hmap : (db.map fun s => if s.id == id then appliedUpdate s st tx err else s) = db :=
    map_eq_self_of_no_match _ _ db (fun s hsdb => by
      have := hall s hsdb
      simp only [Bool.not_eq_true] at this
      exact this)
  unfold updateMultiSettleSettlementStatus
  rw [if_pos (by rw [hfil]; rfl)]
  rw [hmap]

theorem createSettlement_fresh (db : SettleDB) (id : String)
    (data : CreateSettlementData)
    (hfresh : getMultiSettleSettlementById db id = none) :
    createMultiSettleSettlement db id data
      = (some (settlementRow id data), db ++ [settlementRow id data]) := by
  unfold createMultiSettleSettlement
  have hfresh' : db.find? (fun s => s.id == id) = none := hfresh
  show (getMultiSettleSettlementById (db ++ [settlementRow id data]) id, _) = _
  unfold getMultiSettleSettlementById
  rw [find_append, hfresh']
  simp [List.find?, settlementRow]

theorem settle_after_checks (dbA : AuthDB) (dbS : SettleDB) (fid : String)
    (req : SettleRequest) (env : SettleEnv) (signature : AuthRecord)
    (hsig : getMultiSettleSignatureById dbA req.authorizationId = some signature)
    (hfid : signature.facilitator_id = fid)
    (hs : signature.status = AuthStatus.active)
    (hexp : ¬ signature.valid_until < env.nowPre)
    (hrem : ¬ signature.remaining_amount < req.amount)
    (hpos : ¬ req.amount ≤ 0)
    (cid : Nat) (hnet : networkToChainId signature.network = some cid)
    (hsol : isSolanaNetwork signature.network = false)
    (hkey : env.keyPresent = true) (hdec : env.decryptOk = true) :
    settle dbA dbS fid req env = reservePhase signature dbA dbS fid req env := by
  unfold settle
  rw [hsig]
  dsimp only
  rw [if_neg (by simp [hfid]), if_neg (by simp [hs]), if_neg hexp, if_neg hrem,
    if_neg hpos, hnet]
  dsimp only
  rw [if_neg (by simp [hsol]), if_neg (by simp [hkey]), if_neg (by simp [hdec])]

theorem disbursePhase_trace (u : AuthRecord) (s : SettlementRecord)
    (dbA : AuthDB) (dbS : SettleDB) (req : SettleRequest) (env : SettleEnv) :
    (disbursePhase u s dbA dbS req env).trace
        = [Ev.balCheckEv, Ev.supdateEv s.id .failed]
    ∨ (disbursePhase u s dbA dbS req env).trace
        = [Ev.balCheckEv, Ev.disburseEv, Ev.supdateEv s.id .success]
    ∨ (disbursePhase u s dbA dbS req env).trace
        = [Ev.balCheckEv, Ev.disburseEv, Ev.supdateEv s.id .failed] := by
  unfold disbursePhase
  by_cases hb : env.balanceResult.sufficient = false
  · rw [if_pos hb]
    exact Or.inl rfl
  · rw [if_neg hb]
    by_cases ht : env.transferResult.success = true
    · rw [if_pos ht]
      exact Or.inr (Or.inl rfl)
    · rw [if_neg ht]
      exact Or.inr (Or.inr rfl)

theorem chainPhase_trace (signature u : AuthRecord) (s : SettlementRecord)
    (dbA : AuthDB) (dbS : SettleDB) (req : SettleRequest) (env : SettleEnv) :
    ∃ t, (chainPhase signature u s dbA dbS req env).trace = t ∧
      (∀ e ∈ t, e.isChain = true
        ∨ ∃ st, st ≠ SettleStatus.pending ∧ e = Ev.supdateEv s.id st) ∧
      (t.filter isUpdate).length ≤ 1 := by
  unfold chainPhase
  by_cases hd : signature.deposited = false
  · rw [if_pos hd]
    cases hx : env.extractDetails with
    | none =>
      refine ⟨_, rfl, ?_, ?_⟩
      · intro e he
        simp only [List.mem_singleton] at he
        exact Or.inr ⟨.failed, by simp, he⟩
      · simp [isUpdate]
    | some d =>
      by_cases hdep : env.depositResult.success = false
      · rw [if_pos hdep]
        refine ⟨_, rfl, ?_, ?_⟩
        · intro e he
          simp only [List.mem_cons, List.mem_singleton, List.not_mem_nil, or_false] at he
          rcases he with rfl | rfl
          · exact Or.inl rfl
          · exact Or.inr ⟨.failed, by simp, rfl⟩
        · simp [isUpdate, Ev.isChain]
      · rw [if_neg hdep]
        rcases disbursePhase_trace u s (markSignatureDeposited dbA req.authorizationId).2
            dbS req env with h | h | h <;>
        · refine ⟨_, rfl, ?_, ?_⟩
          · intro e he
            simp only [List.mem_cons, h, List.mem_singleton, List.not_mem_nil, or_false] at he
            rcases he with rfl | rfl | rfl | rfl
            all_goals first
              | exact Or.inl rfl
              | exact Or.inr ⟨_, by simp, rfl⟩
          · simp only [List.filter_cons, h]
            simp [isUpdate, Ev.isChain]
  · rw [if_neg hd]
    rcases disbursePhase_trace u s dbA dbS req env with h | h | h <;>
    · refine ⟨_, rfl, ?_, ?_⟩
      · intro e he
        simp only [h, List.mem_cons, List.mem_singleton, List.not_mem_nil, or_false] at he
        rcases he with rfl | rfl | rfl
        all_goals first
          | exact Or.inl rfl
          | exact Or.inr ⟨_, by simp, rfl⟩
      · simp only [h]
        simp [isUpdate, Ev.isChain]

theorem reservePhase_trace_cases (signature : AuthRecord) (dbA : AuthDB)
    (dbS : SettleDB) (fid : String) (req : SettleRequest) (env : SettleEnv) :
    (reservePhase signature dbA dbS fid req env).trace = []
    ∨ ((reservePhase signature dbA dbS fid req env).trace = [Ev.reserveEv none]
        ∧ (reservePhase signature dbA dbS fid req env).resp.success = false)
    ∨ ∃ upd rest,
        (reservePhase signature dbA dbS fid req env).trace
          = Ev.reserveEv (some upd) :: Ev.screateEv env.freshSettlementId .pending :: rest
        ∧ (∀ e ∈ rest, e.isChain = true
            ∨ ∃ sid st, st ≠ SettleStatus.pending ∧ e = Ev.supdateEv sid st)
        ∧ (rest.filter isUpdate).length ≤ 1 := by
  unfold reservePhase
  rcases hdec : decrementRemainingAmount dbA env.nowRes req.authorizationId req.amount
    with ⟨res, dbA1⟩
  cases res with
  | none => exact Or.inr (Or.inl ⟨rfl, rfl⟩)
  | some upd =>
    rcases hc : createMultiSettleSettlement dbS env.freshSettlementId
      { signature_id := req.authorizationId
        facilitator_id := fid
        pay_to := req.payTo
        amount := req.amount
        transaction_hash := none
        status := SettleStatus.pending
        error_message := none } with ⟨sres, dbS1⟩
    cases sres with
    | none =>
      refine Or.inr (Or.inr ⟨upd, [], ?_, ?_, ?_⟩)
      · simp
      · intro e he
        exact absurd he (List.not_mem_nil e)
      · simp
    | some settlement =>
      rcases chainPhase_trace signature upd settlement dbA1 dbS1 req env
        with ⟨t, ht, hall, hcount⟩
      refine Or.inr (Or.inr ⟨upd, t, ?_, ?_, hcount⟩)
      · simp [ht]
      · intro e he
        rcases hall e he with h | ⟨st, hst, rfl⟩
        · exact Or.inl h
        · exact Or.inr ⟨settlement.id, st, hst, rfl⟩

theorem settle_trace_cases (dbA : AuthDB) (dbS : SettleDB) (fid : String)
    (req : SettleRequest) (env : SettleEnv) :
    (settle dbA dbS fid req env).trace = []
    ∨ ((settle dbA dbS fid req env).trace = [Ev.reserveEv none]
        ∧ (settle dbA dbS fid req env).resp.success = false)
    ∨ ∃ upd rest,
        (settle dbA dbS fid req env).trace
          = Ev.reserveEv (some upd) :: Ev.screateEv env.freshSettlementId .pending :: rest
        ∧ (∀ e ∈ rest, e.isChain = true
            ∨ ∃ sid st, st ≠ SettleStatus.pending ∧ e = Ev.supdateEv sid st)
        ∧ (rest.filter isUpdate).length ≤ 1 := by
  unfold settle
  cases hsig : getMultiSettleSignatureById dbA req.authorizationId with
  | none => exact Or.inl rfl
  | some signature =>
    dsimp only
    by_cases h1 : (signature.facilitator_id != fid) = true
    · rw [if_pos h1]; exact Or.inl rfl
    rw [if_neg h1]
    by_cases h2 : (signature.status != AuthStatus.active) = true
    · rw [if_pos h2]; exact Or.inl rfl
    rw [if_neg h2]
    by_cases h3 : signature.valid_until < env.nowPre
    · rw [if_pos h3]; exact Or.inl rfl
    rw [if_neg h3]
    by_cases h4 : signature.remaining_amount < req.amount
    · rw [if_pos h4]; exact Or.inl rfl
    rw [if_neg h4]
    by_cases h5 : req.amount ≤ 0
    · rw [if_pos h5]; exact Or.inl rfl
    rw [if_neg h5]
    cases hnet : networkToChainId signature.network with
    | none => exact Or.inl rfl
    | some cid =>
      dsimp only
      by_cases h6 : (isSolanaNetwork signature.network) = true
      · rw [if_pos h6]; exact Or.inl rfl
      rw [if_neg h6]
      by_cases h7 : env.keyPresent = false
      · rw [if_pos h7]; exact Or.inl rfl
      rw [if_neg h7]
      by_cases h8 : env.decryptOk = false
      · rw [if_pos h8]; exact Or.inl rfl
      rw [if_neg h8]
      exact reservePhase_trace_cases signature dbA dbS fid req env

theorem runCollect_facts (id : String) (ops : List StoreOp) :
    ∀ (db : AuthDB) (r : AuthRecord),
      getMultiSettleSignatureById db id = some r →
      0 ≤ r.remaining_amount →
      opsNonneg ops →
      ∃ r', getMultiSettleSignatureById (runCollect id db ops).1 id = some r' ∧
        r'.cap_amount = r.cap_amount ∧
        0 ≤ r'.remaining_amount ∧
        r'.remaining_amount ≤ r.remaining_amount ∧
        (runCollect id db ops).2 = r.remaining_amount - r'.remaining_amount := by
  induction ops with
  | nil =>
    intro db r hr h0 _
    exact ⟨r, hr, rfl, h0, le_refl _, by simp [runCollect]⟩
  | cons op ops ih =>
    intro db r hr h0 hnn
    have hnnop : 0 ≤ opAmount op := hnn op (List.mem_cons_self op ops)
    have hnntail : opsNonneg ops := fun o ho => hnn o (List.mem_cons_of_mem op ho)
    cases op with
    | reserveOp now amount =>
      have hnnamt : 0 ≤ amount := hnnop
      by_cases hs : r.status = AuthStatus.active
      · by_cases hexp : r.valid_until < now
        · have hd := decrement_expired db now id amount r hr hs hexp
          have hlook := getById_setWhereId_found db id
            (fun s => { s with status := AuthStatus.expired }) (fun s => rfl) r hr
          rcases ih _ _ hlook h0 hnntail with ⟨r', hr', hcap, h0', hle, hsum⟩
          have hcap' : r'.cap_amount = r.cap_amount := hcap
          have hle' : r'.remaining_amount ≤ r.remaining_amount := hle
          have hsum' : (runCollect id (setWhereId db id
              (fun s => { s with status := AuthStatus.expired })) ops).2
              = r.remaining_amount - r'.remaining_amount := hsum
          refine ⟨r', ?_, hcap', h0', hle', ?_⟩
          · simp only [runCollect, hd]
            exact hr'
          · simp only [runCollect, hd, Option.isSome_none, Bool.false_eq_true, if_false]
            omega
        · by_cases hlt : r.remaining_amount < amount
          · have hd := decrement_insufficient db now id amount r hr hs hexp hlt
            rcases ih _ _ hr h0 hnntail with ⟨r', hr', hcap, h0', hle, hsum⟩
            refine ⟨r', ?_, hcap, h0', hle, ?_⟩
            · simp only [runCollect, hd]
              exact hr'
            · simp only [runCollect, hd, Option.isSome_none, Bool.false_eq_true, if_false]
              omega
          · have hle0 : amount ≤ r.remaining_amount := Int.not_lt.mp hlt
            have hd := decrement_success db now id amount r hr hs hexp hle0
            have hlook : getMultiSettleSignatureById
                (reserveSuccessDB db id (r.remaining_amount - amount)) id
                = some (appliedReserve r amount) :=
              getById_reserveSuccessDB db id (r.remaining_amount - amount) r hr
            have h0new : 0 ≤ (appliedReserve r amount).remaining_amount := by
              unfold appliedReserve
              dsimp only
              omega
            rcases ih _ _ hlook h0new hnntail with ⟨r', hr', hcap, h0', hle, hsum⟩
            have hremnew : (appliedReserve r amount).remaining_amount
                = r.remaining_amount - amount := rfl
            have hcapnew : (appliedReserve r amount).cap_amount = r.cap_amount := rfl
            rw [hremnew] at hsum hle
            refine ⟨r', ?_, by rw [hcap, hcapnew], h0', by omega, ?_⟩
            · simp only [runCollect, hd]
              exact hr'
            · simp only [runCollect, hd, Option.isSome_some, if_true]
              omega
      · have hd := decrement_not_active db now id amount r hr hs
        rcases ih _ _ hr h0 hnntail with ⟨r', hr', hcap, h0', hle, hsum⟩
        refine ⟨r', ?_, hcap, h0', hle, ?_⟩
        · simp only [runCollect, hd]
          exact hr'
        · simp only [runCollect, hd, Option.isSome_none, Bool.false_eq_true, if_false]
          omega
    | revokeOp =>
      have hlook := getById_revoke db id r hr
      by_cases hs : r.status = AuthStatus.active
      · rw [if_pos hs] at hlook
        rcases ih _ _ hlook h0 hnntail with ⟨r', hr', hcap, h0', hle, hsum⟩
        exact ⟨r', by simpa [runCollect] using hr', hcap, h0', hle,
          by simpa [runCollect] using hsum⟩
      · rw [if_neg hs] at hlook
        rcases ih _ _ hlook h0 hnntail with ⟨r', hr', hcap, h0', hle, hsum⟩
        exact ⟨r', by simpa [runCollect] using hr', hcap, h0', hle,
          by simpa [runCollect] using hsum⟩
    | markDepositedOp =>
      have hlook := getById_markDeposited db id r hr
      rcases ih _ _ hlook h0 hnntail with ⟨r', hr', hcap, h0', hle, hsum⟩
      exact ⟨r', by simpa [runCollect] using hr', hcap, h0', hle,
        by simpa [runCollect] using hsum⟩

theorem runOp_monotone (id : String) (db : AuthDB) (op : StoreOp) (r : AuthRecord)
    (hr : getMultiSettleSignatureById db id = some r) (hnn : 0 ≤ opAmount op)
    (r' : AuthRecord) (hr' : getMultiSettleSignatureById (runOp id db op) id = some r') :
    r'.remaining_amount ≤ r.remaining_amount ∧ r'.cap_amount = r.cap_amount := by
  cases op with
  | reserveOp now amount =>
    have hnnamt : 0 ≤ amount := hnn
    by_cases hs : r.status = AuthStatus.active
    · by_cases hexp : r.valid_until < now
      · have hd := decrement_expired db now id amount r hr hs hexp
        have hlook := getById_setWhereId_found db id
          (fun s => { s with status := AuthStatus.expired }) (fun s => rfl) r hr
        rw [show runOp id db (StoreOp.reserveOp now amount)
            = (decrementRemainingAmount db now id amount).2 from rfl, hd] at hr'
        rw [hlook] at hr'
        cases hr'
        exact ⟨le_refl _, rfl⟩
      · by_cases hlt : r.remaining_amount < amount
        · have hd := decrement_insufficient db now id amount r hr hs hexp hlt
          rw [show runOp id db (StoreOp.reserveOp now amount)
              = (decrementRemainingAmount db now id amount).2 from rfl, hd] at hr'
          rw [hr] at hr'
          cases hr'
          exact ⟨le_refl _, rfl⟩
        · have hle0 : amount ≤ r.remaining_amount := Int.not_lt.mp hlt
          have hd := decrement_success db now id amount r hr hs hexp hle0
          have hlook := getById_reserveSuccessDB db id (r.remaining_amount - amount) r hr
          rw [show runOp id db (StoreOp.reserveOp now amount)
              = (decrementRemainingAmount db now id amount).2 from rfl, hd] at hr'
          rw [show (some (appliedReserve r amount),
              reserveSuccessDB db id (r.remaining_amount - amount)).2
              = reserveSuccessDB db id (r.remaining_amount - amount) from rfl] at hr'
          rw [hlook] at hr'
          cases hr'
          exact ⟨by dsimp only; omega, rfl⟩
    · have hd := decrement_not_active db now id amount r hr hs
      rw [show runOp id db (StoreOp.reserveOp now amount)
          = (decrementRemainingAmount db now id amount).2 from rfl, hd] at hr'
      rw [hr] at hr'
      cases hr'
      exact ⟨le_refl _, rfl⟩
  | revokeOp =>
    have hlook := getById_revoke db id r hr
    rw [show runOp id db StoreOp.revokeOp = (revokeMultiSettleSignature db id).2 from rfl,
      hlook] at hr'
    cases hr'
    by_cases hs : r.status = AuthStatus.active
    · rw [if_pos hs]
      exact ⟨le_refl _, rfl⟩
    · rw [if_neg hs]
      exact ⟨le_refl _, rfl⟩
  | markDepositedOp =>
    have hlook := getById_markDeposited db id r hr
    rw [show runOp id db StoreOp.markDepositedOp
        = (markSignatureDeposited db id).2 from rfl, hlook] at hr'
    cases hr'
    exact ⟨le_refl _, rfl⟩

theorem runOp_frozen (id : String) (db : AuthDB) (op : StoreOp) (r : AuthRecord)
    (hr : getMultiSettleSignatureById db id = some r)
    (hs : r.status ≠ AuthStatus.active)
    (r' : AuthRecord) (hr' : getMultiSettleSignatureById (runOp id db op) id = some r') :
    r'.remaining_amount = r.remaining_amount ∧ r'.status = r.status := by
  cases op with
  | reserveOp now amount =>
    have hd := decrement_not_active db now id amount r hr hs
    rw [show runOp id db (StoreOp.reserveOp now amount)
        = (decrementRemainingAmount db now id amount).2 from rfl, hd] at hr'
    rw [hr] at hr'
    cases hr'
    exact ⟨rfl, rfl⟩
  | revokeOp =>
    have hlook := getById_revoke db id r hr
    rw [if_neg hs] at hlook
    rw [show runOp id db StoreOp.revokeOp = (revokeMultiSettleSignature db id).2 from rfl,
      hlook] at hr'
    cases hr'
    exact ⟨rfl, rfl⟩
  | markDepositedOp =>
    have hlook := getById_markDeposited db id r hr
    rw [show runOp id db StoreOp.markDepositedOp
        = (markSignatureDeposited db id).2 from rfl, hlook] at hr'
    cases hr'
    exact ⟨rfl, rfl⟩

/-! ## Claims -/

/-- C1 (amended): `decrementRemainingAmount(id, amount)`, within one atomic unit
of work: returns `None` if no record with that id exists; returns `None`
(leaving the table untouched) if the status is not `active`; if the record is
active and its `valid_until` has passed, flips its status to `expired` and
returns `None`; returns `None` if `amount > remaining`; and otherwise subtracts
`amount` from `remaining`, sets status to `exhausted` exactly when the new
remaining is zero, and returns the updated record.  (Amendment: the status
check precedes the expiry check, so the expiry flip happens only on `active`
records — the claim as frozen orders the expiry flip first.) -/
theorem C1_reserve_spec (db : AuthDB) (now : Int) (id : String) (amount : Int) :
    (getMultiSettleSignatureById db id = none →
      decrementRemainingAmount db now id amount = (none, db)) ∧
    ∀ r, getMultiSettleSignatureById db id = some r →
      (r.status ≠ AuthStatus.active →
        decrementRemainingAmount db now id amount = (none, db)) ∧
      (r.status = AuthStatus.active → r.valid_until < now →
        (decrementRemainingAmount db now id amount).1 = none ∧
        getMultiSettleSignatureById (decrementRemainingAmount db now id amount).2 id
          = some ({ r with status := AuthStatus.expired })) ∧
      (r.status = AuthStatus.active → ¬ r.valid_until < now →
          r.remaining_amount < amount →
        decrementRemainingAmount db now id amount = (none, db)) ∧
      (r.status = AuthStatus.active → ¬ r.valid_until < now →
          amount ≤ r.remaining_amount →
        (decrementRemainingAmount db now id amount).1 = some (appliedReserve r amount) ∧
        getMultiSettleSignatureById (decrementRemainingAmount db now id amount).2 id
          = some (appliedReserve r amount) ∧
        (appliedReserve r amount).remaining_amount = r.remaining_amount - amount ∧
        ((appliedReserve r amount).status = AuthStatus.exhausted
          ↔ r.remaining_amount - amount = 0)) := by
  constructor
  · exact fun h => decrement_missing db now id amount h
  · intro r hr
    refine ⟨fun hs => decrement_not_active db now id amount r hr hs, ?_, ?_, ?_⟩
    · intro hs he
      have hd := decrement_expired db now id amount r hr hs he
      refine ⟨by rw [hd], ?_⟩
      rw [hd]
      exact getById_setWhereId_found db id
        (fun s => { s with status := AuthStatus.expired }) (fun s => rfl) r hr
    · exact fun hs he hlt => decrement_insufficient db now id amount r hr hs he hlt
    · intro hs he hle
      have hd := decrement_success db now id amount r hr hs he hle
      refine ⟨by rw [hd], ?_, rfl, ?_⟩
      · rw [hd]
        exact getById_reserveSuccessDB db id (r.remaining_amount - amount) r hr
      · unfold appliedReserve
        dsimp only
        by_cases hz : r.remaining_amount - amount = 0
        · simp [hz]
        · simp [hz, hs]

/-- C1 witness: the success clause on the concrete fixture (reserve 50 of 200). -/
theorem C1_reserve_spec_witness :
    (decrementRemainingAmount [sampleAuth] 10 "auth1" 50).1
      = some (appliedReserve sampleAuth 50)
    ∧ (appliedReserve sampleAuth 50).remaining_amount = 150 := by
  have h := ((C1_reserve_spec [sampleAuth] 10 "auth1" 50).2 sampleAuth
    (by decide)).2.2.2 (by decide) (by decide) (by decide)
  exact ⟨h.1, by decide⟩

/-- C1 counterexample: the claim as stated says any record whose `valid_until`
has passed is flipped to `expired`; the code checks `status ≠ active` first, so
a revoked record whose validity has passed keeps status `revoked`. -/
theorem C1_counterexample :
    ¬ (∀ (db : AuthDB) (now : Int) (id : String) (amount : Int) (r : AuthRecord),
        getMultiSettleSignatureById db id = some r →
        r.valid_until < now →
        (decrementRemainingAmount db now id amount).1 = none ∧
        ∀ r', getMultiSettleSignatureById
            (decrementRemainingAmount db now id amount).2 id = some r' →
          r'.status = AuthStatus.expired) := by
  intro h
  have h2 := (h [{ sampleAuth with status := AuthStatus.revoked, valid_until := 5 }]
    10 "auth1" 1 { sampleAuth with status := AuthStatus.revoked, valid_until := 5 }
    (by decide) (by decide)).2
    { sampleAuth with status := AuthStatus.revoked, valid_until := 5 } (by decide)
  exact absurd h2 (by decide)

/-- C2: for every authorization record and every sequence of store operations
(reserve via `decrementRemainingAmount` with nonnegative amounts, revoke,
markDeposited), starting from a freshly created record
(`remaining = cap ≥ 0`): the final record satisfies `0 ≤ remaining ≤ cap` with
the cap unchanged, and the sum of the amounts of the reserves that returned
non-`None` equals `cap - remaining`, hence never exceeds the cap; moreover each
single operation never increases `remaining`, and once the status is not
`active` both `remaining` and the status are unchanged by every operation. -/
theorem C2_store_invariants :
    (∀ (db : AuthDB) (id : String) (ops : List StoreOp) (r0 : AuthRecord),
      getMultiSettleSignatureById db id = some r0 →
      r0.remaining_amount = r0.cap_amount →
      0 ≤ r0.cap_amount →
      opsNonneg ops →
      ∃ r', getMultiSettleSignatureById (runCollect id db ops).1 id = some r' ∧
        0 ≤ r'.remaining_amount ∧ r'.remaining_amount ≤ r'.cap_amount ∧
        r'.cap_amount = r0.cap_amount ∧
        (runCollect id db ops).2 = r0.cap_amount - r'.remaining_amount ∧
        (runCollect id db ops).2 ≤ r0.cap_amount) ∧
    (∀ (id : String) (db : AuthDB) (op : StoreOp) (r : AuthRecord),
      getMultiSettleSignatureById db id = some r → 0 ≤ opAmount op →
      ∀ r', getMultiSettleSignatureById (runOp id db op) id = some r' →
        r'.remaining_amount ≤ r.remaining_amount) ∧
    (∀ (id : String) (db : AuthDB) (op : StoreOp) (r : AuthRecord),
      getMultiSettleSignatureById db id = some r →
      r.status ≠ AuthStatus.active →
      ∀ r', getMultiSettleSignatureById (runOp id db op) id = some r' →
        r'.remaining_amount = r.remaining_amount ∧ r'.status = r.status) := by
  refine ⟨?_, ?_, ?_⟩
  · intro db id ops r0 hr0 hrem hcap hnn
    rcases runCollect_facts id ops db r0 hr0 (by omega) hnn
      with ⟨r', hr', hc, h0, hle, hsum⟩
    exact ⟨r', hr', h0, by omega, hc, by omega, by omega⟩
  · exact fun id db op r hr hnn r' hr' => (runOp_monotone id db op r hr hnn r' hr').1
  · exact fun id db op r hr hs r' hr' => runOp_frozen id db op r hr hs r' hr'

/-- C2 witness: the spec scenario — cap 200, reserves of 50, 30, 40 then a
revoke. -/
theorem C2_store_invariants_witness :
    ∃ r', getMultiSettleSignatureById
        (runCollect "auth1" [sampleAuth]
          [StoreOp.reserveOp 10 50, StoreOp.reserveOp 10 30,
           StoreOp.reserveOp 10 40, StoreOp.revokeOp]).1 "auth1" = some r' ∧
      0 ≤ r'.remaining_amount ∧ r'.remaining_amount ≤ r'.cap_amount ∧
      r'.cap_amount = sampleAuth.cap_amount ∧
      (runCollect "auth1" [sampleAuth]
        [StoreOp.reserveOp 10 50, StoreOp.reserveOp 10 30,
         StoreOp.reserveOp 10 40, StoreOp.revokeOp]).2
        = sampleAuth.cap_amount - r'.remaining_amount ∧
      (runCollect "auth1" [sampleAuth]
        [StoreOp.reserveOp 10 50, StoreOp.reserveOp 10 30,
         StoreOp.reserveOp 10 40, StoreOp.revokeOp]).2 ≤ sampleAuth.cap_amount :=
  C2_store_invariants.1 [sampleAuth] "auth1"
    [StoreOp.reserveOp 10 50, StoreOp.reserveOp 10 30,
     StoreOp.reserveOp 10 40, StoreOp.revokeOp] sampleAuth
    (by decide) (by decide) (by decide) (by unfold opsNonneg; decide)

/-- C3: in every execution of the settle route, if the reserve call returns
`None` the request fails and no on-chain call (deposit, balance check or
disburse) is performed; and whenever an on-chain call is performed, the trace
starts with a successful reservation immediately followed by the creation of
the `pending` settlement record, and every chain call comes strictly after
both. -/
theorem C3_reserve_gate (dbA : AuthDB) (dbS : SettleDB) (fid : String)
    (req : SettleRequest) (env : SettleEnv) :
    (Ev.reserveEv none ∈ (settle dbA dbS fid req env).trace →
      (settle dbA dbS fid req env).resp.success = false ∧
      ∀ e ∈ (settle dbA dbS fid req env).trace, e.isChain = false) ∧
    ((∃ e ∈ (settle dbA dbS fid req env).trace, e.isChain = true) →
      ∃ upd, (settle dbA dbS fid req env).trace.head?
          = some (Ev.reserveEv (some upd)) ∧
        (settle dbA dbS fid req env).trace[1]?
          = some (Ev.screateEv env.freshSettlementId SettleStatus.pending) ∧
        ∀ i e, (settle dbA dbS fid req env).trace[i]? = some e →
          e.isChain = true → 2 ≤ i) := by
  rcases settle_trace_cases dbA dbS fid req env
    with h | ⟨h, hsucc⟩ | ⟨upd, rest, h, hall, _⟩
  · constructor
    · intro hmem
      rw [h] at hmem
      exact absurd hmem (List.not_mem_nil _)
    · rintro ⟨e, hmem, _⟩
      rw [h] at hmem
      exact absurd hmem (List.not_mem_nil _)
  · constructor
    · intro _
      refine ⟨hsucc, ?_⟩
      intro e hmem
      rw [h] at hmem
      simp only [List.mem_singleton] at hmem
      subst hmem
      rfl
    · rintro ⟨e, hmem, hchain⟩
      rw [h] at hmem
      simp only [List.mem_singleton] at hmem
      subst hmem
      exact absurd hchain (by decide)
  · constructor
    · intro hmem
      rw [h] at hmem
      simp only [List.mem_cons] at hmem
      rcases hmem with heq | heq | hmem
      · exact absurd heq (by simp)
      · exact absurd heq (by simp)
      · rcases hall _ hmem with hchain | ⟨sid, st, _, heq⟩
        · exact absurd hchain (by decide)
        · exact absurd heq (by simp)
    · intro _
      refine ⟨upd, by rw [h]; rfl,
        by rw [h]; simp only [List.getElem?_cons_succ, List.getElem?_cons_zero], ?_⟩
      intro i e hi hchain
      rw [h] at hi
      match i with
      | 0 =>
        simp only [List.getElem?_cons_zero, Option.some.injEq] at hi
        subst hi
        exact absurd hchain (by simp [Ev.isChain])
      | 1 =>
        simp only [List.getElem?_cons_succ, List.getElem?_cons_zero,
          Option.some.injEq] at hi
        subst hi
        exact absurd hchain (by simp [Ev.isChain])
      | (n + 2) => omega

/-- C3 witness: a fully successful settle run performs chain calls, with the
reservation and pending record first. -/
theorem C3_reserve_gate_witness :
    ∃ upd, (settle [sampleAuth] [] "fac1" sampleReq sampleEnv).trace.head?
        = some (Ev.reserveEv (some upd)) ∧
      (settle [sampleAuth] [] "fac1" sampleReq sampleEnv).trace[1]?
        = some (Ev.screateEv sampleEnv.freshSettlementId SettleStatus.pending) ∧
      ∀ i e, (settle [sampleAuth] [] "fac1" sampleReq sampleEnv).trace[i]? = some e →
        e.isChain = true → 2 ≤ i :=
  (C3_reserve_gate [sampleAuth] [] "fac1" sampleReq sampleEnv).2 (by decide)

/-- C4 counterexample: a settle call against an active authorization whose
`valid_until` (5) has passed (now 10) returns failure, but the stored status
remains `active`: the route's expiry pre-check returns without flipping it, so
the store's status does not become `expired` as the claim states. -/
theorem C4_counterexample :
    (settle [{ sampleAuth with valid_until := 5 }] [] "fac1" sampleReq
        sampleEnv).resp.success = false
    ∧ getMultiSettleSignatureById
        (settle [{ sampleAuth with valid_until := 5 }] [] "fac1" sampleReq
          sampleEnv).dbA "auth1"
        = some ({ sampleAuth with valid_until := 5 })
    ∧ ({ sampleAuth with valid_until := 5 } : AuthRecord).status = AuthStatus.active
    ∧ AuthStatus.active ≠ AuthStatus.expired := by
  decide

/-- C4 (amended): a settle call against an authorization whose `valid_until`
has passed at the route's clock read fails with "Authorization has expired"
even if `remaining > 0`, but leaves both stores untouched; the lazy flip to
`expired` happens only on the reserve path: `decrementRemainingAmount`
observing `valid_until < now` on an `active` record flips it to `expired` and
returns `None`. -/
theorem C4_expiry (dbA : AuthDB) (dbS : SettleDB) (fid : String)
    (req : SettleRequest) (env : SettleEnv) (r : AuthRecord)
    (hr : getMultiSettleSignatureById dbA req.authorizationId = some r)
    (hfid : r.facilitator_id = fid) (hs : r.status = AuthStatus.active)
    (he : r.valid_until < env.nowPre) :
    ((settle dbA dbS fid req env).resp.success = false ∧
     (settle dbA dbS fid req env).resp.errorMessage
        = some "Authorization has expired" ∧
     (settle dbA dbS fid req env).dbA = dbA ∧
     (settle dbA dbS fid req env).dbS = dbS) ∧
    ∀ now2, r.valid_until < now2 →
      (decrementRemainingAmount dbA now2 req.authorizationId req.amount).1 = none ∧
      getMultiSettleSignatureById
          (decrementRemainingAmount dbA now2 req.authorizationId req.amount).2
          req.authorizationId
        = some ({ r with status := AuthStatus.expired }) := by
  constructor
  · unfold settle
    rw [hr]
    dsimp only
    rw [if_neg (by simp [hfid]), if_neg (by simp [hs]), if_pos he]
    exact ⟨rfl, rfl, rfl, rfl⟩
  · intro now2 h2
    have hd := decrement_expired dbA now2 req.authorizationId req.amount r hr hs h2
    refine ⟨by rw [hd], ?_⟩
    rw [hd]
    exact getById_setWhereId_found dbA req.authorizationId
      (fun s => { s with status := AuthStatus.expired }) (fun s => rfl) r hr

/-- C4 witness: the route clause and the reserve-path flip on the fixture with
`valid_until = 5 < now = 10` and `remaining = 200 > 0`. -/
theorem C4_expiry_witness :
    ((settle [{ sampleAuth with valid_until := 5 }] [] "fac1" sampleReq
        sampleEnv).resp.success = false ∧
      (settle [{ sampleAuth with valid_until := 5 }] [] "fac1" sampleReq
        sampleEnv).resp.errorMessage = some "Authorization has expired") ∧
    getMultiSettleSignatureById
        (decrementRemainingAmount [{ sampleAuth with valid_until := 5 }] 10
          "auth1" 50).2 "auth1"
      = some ({ sampleAuth with valid_until := 5, status := AuthStatus.expired }) := by
  have h := C4_expiry [{ sampleAuth with valid_until := 5 }] [] "fac1" sampleReq
    sampleEnv { sampleAuth with valid_until := 5 }
    (by decide) (by decide) (by decide) (by decide)
  exact ⟨⟨h.1.1, h.1.2.1⟩, (h.2 10 (by decide)).2⟩

theorem appliedUpdate_status (r : SettlementRecord) (st : SettleStatus)
    (tx err : Option String) : (appliedUpdate r st tx err).status = st := by
  unfold appliedUpdate
  cases tx <;> cases err <;> rfl

theorem appliedUpdate_error (r : SettlementRecord) (st : SettleStatus)
    (err : Option String) (h : r.error_message = none) :
    (appliedUpdate r st none err).error_message = err := by
  unfold appliedUpdate
  cases err with
  | none => exact h
  | some e => rfl

theorem chainPhase_deposit_fail (signature upd : AuthRecord)
    (row : SettlementRecord) (dbA : AuthDB) (dbS : SettleDB)
    (req : SettleRequest) (env : SettleEnv) (d : AuthDetails)
    (hd : signature.deposited = false) (hx : env.extractDetails = some d)
    (hdep : env.depositResult.success = false)
    (hrow : getMultiSettleSettlementById dbS row.id = some row) :
    (chainPhase signature upd row dbA dbS req env).resp.success = false ∧
    (chainPhase signature upd row dbA dbS req env).resp.remainingAmount
      = some upd.remaining_amount ∧
    (chainPhase signature upd row dbA dbS req env).dbA = dbA ∧
    getMultiSettleSettlementById
        (chainPhase signature upd row dbA dbS req env).dbS row.id
      = some (appliedUpdate row .failed none env.depositResult.errorMessage) := by
  unfold chainPhase
  rw [if_pos hd, hx]
  dsimp only
  rw [if_pos hdep]
  refine ⟨rfl, rfl, rfl, ?_⟩
  rw [updateStatus_found dbS row.id .failed none env.depositResult.errorMessage row hrow]
  exact getSById_map_update dbS row.id .failed none env.depositResult.errorMessage row hrow

theorem chainPhase_deposited (signature upd : AuthRecord) (row : SettlementRecord)
    (dbA : AuthDB) (dbS : SettleDB) (req : SettleRequest) (env : SettleEnv)
    (hd : signature.deposited = true) :
    chainPhase signature upd row dbA dbS req env
      = disbursePhase upd row dbA dbS req env := by
  unfold chainPhase
  rw [if_neg (by simp [hd])]

theorem chainPhase_deposit_ok (signature upd : AuthRecord) (row : SettlementRecord)
    (dbA : AuthDB) (dbS : SettleDB) (req : SettleRequest) (env : SettleEnv)
    (d : AuthDetails)
    (hd : signature.deposited = false) (hx : env.extractDetails = some d)
    (hdep : env.depositResult.success = true) :
    chainPhase signature upd row dbA dbS req env
      = { disbursePhase upd row (markSignatureDeposited dbA req.authorizationId).2
            dbS req env with
          trace := Ev.depositEv
            :: (disbursePhase upd row
                  (markSignatureDeposited dbA req.authorizationId).2 dbS req env).trace } := by
  unfold chainPhase
  rw [if_pos hd, hx]
  dsimp only
  rw [if_neg (by simp [hdep])]

theorem disbursePhase_insufficient (upd : AuthRecord) (row : SettlementRecord)
    (dbA : AuthDB) (dbS : SettleDB) (req : SettleRequest) (env : SettleEnv)
    (hb : env.balanceResult.sufficient = false)
    (hrow : getMultiSettleSettlementById dbS row.id = some row) :
    (disbursePhase upd row dbA dbS req env).resp.success = false ∧
    (disbursePhase upd row dbA dbS req env).resp.errorMessage
      = some "Facilitator has insufficient balance for transfer" ∧
    (disbursePhase upd row dbA dbS req env).resp.remainingAmount
      = some upd.remaining_amount ∧
    (disbursePhase upd row dbA dbS req env).dbA = dbA ∧
    getMultiSettleSettlementById (disbursePhase upd row dbA dbS req env).dbS row.id
      = some (appliedUpdate row .failed none
          (some ("Insufficient facilitator balance: "
            ++ toString env.balanceResult.balance ++ " < " ++ toString req.amount))) := by
  unfold disbursePhase
  rw [if_pos hb]
  refine ⟨rfl, rfl, rfl, rfl, ?_⟩
  rw [updateStatus_found dbS row.id .failed none _ row hrow]
  exact getSById_map_update dbS row.id .failed none _ row hrow

theorem disbursePhase_transfer_fail (upd : AuthRecord) (row : SettlementRecord)
    (dbA : AuthDB) (dbS : SettleDB) (req : SettleRequest) (env : SettleEnv)
    (hb : env.balanceResult.sufficient = true)
    (ht : env.transferResult.success = false)
    (hrow : getMultiSettleSettlementById dbS row.id = some row) :
    (disbursePhase upd row dbA dbS req env).resp.success = false ∧
    (disbursePhase upd row dbA dbS req env).resp.errorMessage
      = env.transferResult.errorMessage ∧
    (disbursePhase upd row dbA dbS req env).resp.remainingAmount
      = some upd.remaining_amount ∧
    (disbursePhase upd row dbA dbS req env).dbA = dbA ∧
    getMultiSettleSettlementById (disbursePhase upd row dbA dbS req env).dbS row.id
      = some (appliedUpdate row .failed none env.transferResult.errorMessage) := by
  unfold disbursePhase
  rw [if_neg (by simp [hb]), if_neg (by simp [ht])]
  refine ⟨rfl, rfl, rfl, rfl, ?_⟩
  rw [updateStatus_found dbS row.id .failed none _ row hrow]
  exact getSById_map_update dbS row.id .failed none _ row hrow

/-- C5: after a successful reservation, if the deposit fails, the balance
preflight reports insufficient funds, or the disbursement fails, then the
settlement record is marked `failed` carrying the error message, the reserved
amount is not released (the stored remaining stays decremented to
`remaining - amount`), and the failure response still reports the
authorization's post-reservation remaining balance. -/
theorem C5_failure_keeps_reservation (dbA : AuthDB) (dbS : SettleDB)
    (fid : String) (req : SettleRequest) (env : SettleEnv)
    (signature : AuthRecord)
    (hsig : getMultiSettleSignatureById dbA req.authorizationId = some signature)
    (hfid : signature.facilitator_id = fid)
    (hs : signature.status = AuthStatus.active)
    (hexp : ¬ signature.valid_until < env.nowPre)
    (hexp2 : ¬ signature.valid_until < env.nowRes)
    (hrem : ¬ signature.remaining_amount < req.amount)
    (hpos : ¬ req.amount ≤ 0)
    (cid : Nat) (hnet : networkToChainId signature.network = some cid)
    (hsol : isSolanaNetwork signature.network = false)
    (hkey : env.keyPresent = true) (hdec : env.decryptOk = true)
    (hfreshS : getMultiSettleSettlementById dbS env.freshSettlementId = none) :
    (∀ d : AuthDetails, signature.deposited = false → env.extractDetails = some d →
      env.depositResult.success = false →
      (settle dbA dbS fid req env).resp.success = false ∧
      (settle dbA dbS fid req env).resp.remainingAmount
        = some (signature.remaining_amount - req.amount) ∧
      (∃ r', getMultiSettleSignatureById (settle dbA dbS fid req env).dbA
          req.authorizationId = some r' ∧
        r'.remaining_amount = signature.remaining_amount - req.amount) ∧
      getMultiSettleSettlementById (settle dbA dbS fid req env).dbS
          env.freshSettlementId
        = some (appliedUpdate (pendingRow fid req env) .failed none
            env.depositResult.errorMessage) ∧
      (appliedUpdate (pendingRow fid req env) .failed none
          env.depositResult.errorMessage).status = SettleStatus.failed ∧
      (appliedUpdate (pendingRow fid req env) .failed none
          env.depositResult.errorMessage).error_message
        = env.depositResult.errorMessage) ∧
    ((signature.deposited = true ∨ (env.extractDetails.isSome = true
        ∧ env.depositResult.success = true)) →
      env.balanceResult.sufficient = false →
      (settle dbA dbS fid req env).resp.success = false ∧
      (settle dbA dbS fid req env).resp.errorMessage
        = some "Facilitator has insufficient balance for transfer" ∧
      (settle dbA dbS fid req env).resp.remainingAmount
        = some (signature.remaining_amount - req.amount) ∧
      (∃ r', getMultiSettleSignatureById (settle dbA dbS fid req env).dbA
          req.authorizationId = some r' ∧
        r'.remaining_amount = signature.remaining_amount - req.amount) ∧
      getMultiSettleSettlementById (settle dbA dbS fid req env).dbS
          env.freshSettlementId
        = some (appliedUpdate (pendingRow fid req env) .failed none
            (some ("Insufficient facilitator balance: "
              ++ toString env.balanceResult.balance ++ " < "
              ++ toString req.amount))) ∧
      (appliedUpdate (pendingRow fid req env) .failed none
          (some ("Insufficient facilitator balance: "
            ++ toString env.balanceResult.balance ++ " < "
            ++ toString req.amount))).status = SettleStatus.failed) ∧
    ((signature.deposited = true ∨ (env.extractDetails.isSome = true
        ∧ env.depositResult.success = true)) →
      env.balanceResult.sufficient = true →
      env.transferResult.success = false →
      (settle dbA dbS fid req env).resp.success = false ∧
      (settle dbA dbS fid req env).resp.errorMessage
        = env.transferResult.errorMessage ∧
      (settle dbA dbS fid req env).resp.remainingAmount
        = some (signature.remaining_amount - req.amount) ∧
      (∃ r', getMultiSettleSignatureById (settle dbA dbS fid req env).dbA
          req.authorizationId = some r' ∧
        r'.remaining_amount = signature.remaining_amount - req.amount) ∧
      getMultiSettleSettlementById (settle dbA dbS fid req env).dbS
          env.freshSettlementId
        = some (appliedUpdate (pendingRow fid req env) .failed none
            env.transferResult.errorMessage) ∧
      (appliedUpdate (pendingRow fid req env) .failed none
          env.transferResult.errorMessage).status = SettleStatus.failed ∧
      (appliedUpdate (pendingRow fid req env) .failed none
          env.transferResult.errorMessage).error_message
        = env.transferResult.errorMessage) := by
  have hle : req.amount ≤ signature.remaining_amount := Int.not_lt.mp hrem
  have hsettle := settle_after_checks dbA dbS fid req env signature hsig hfid hs
    hexp hrem hpos cid hnet hsol hkey hdec
  have hd := decrement_success dbA env.nowRes req.authorizationId req.amount
    signature hsig hs hexp2 hle
  have hcreate := createSettlement_fresh dbS env.freshSettlementId
    { signature_id := req.authorizationId
      facilitator_id := fid
      pay_to := req.payTo
      amount := req.amount
      transaction_hash := none
      status := SettleStatus.pending
      error_message := none } hfreshS
  have hrp : settle dbA dbS fid req env
      = { chainPhase signature (appliedReserve signature req.amount)
            (pendingRow fid req env)
            (reserveSuccessDB dbA req.authorizationId
              (signature.remaining_amount - req.amount))
            (dbS ++ [pendingRow fid req env]) req env with
          trace := Ev.reserveEv (some (appliedReserve signature req.amount))
            :: Ev.screateEv env.freshSettlementId .pending
            :: (chainPhase signature (appliedReserve signature req.amount)
                  (pendingRow fid req env)
                  (reserveSuccessDB dbA req.authorizationId
                    (signature.remaining_amount - req.amount))
                  (dbS ++ [pendingRow fid req env]) req env).trace } := by
    rw [hsettle]
    unfold reservePhase
    rw [hd]
    dsimp only
    rw [hcreate]
    rfl
  have hrow : getMultiSettleSettlementById (dbS ++ [pendingRow fid req env])
      (pendingRow fid req env).id = some (pendingRow fid req env) :=
    congrArg Prod.fst hcreate
  have hauthLook : getMultiSettleSignatureById
      (reserveSuccessDB dbA req.authorizationId
        (signature.remaining_amount - req.amount))
      req.authorizationId = some (appliedReserve signature req.amount) :=
    getById_reserveSuccessDB dbA req.authorizationId
      (signature.remaining_amount - req.amount) signature hsig
  refine ⟨?_, ?_, ?_⟩
  · intro d hdep0 hx hdepf
    have hc := chainPhase_deposit_fail signature (appliedReserve signature req.amount)
      (pendingRow fid req env)
      (reserveSuccessDB dbA req.authorizationId
        (signature.remaining_amount - req.amount))
      (dbS ++ [pendingRow fid req env]) req env d hdep0 hx hdepf hrow
    rw [hrp]
    dsimp only
    refine ⟨hc.1, hc.2.1, ?_, hc.2.2.2, appliedUpdate_status _ _ _ _,
      appliedUpdate_error _ _ _ rfl⟩
    refine ⟨appliedReserve signature req.amount, ?_, rfl⟩
    rw [hc.2.2.1]
    exact hauthLook
  · intro hcase hbal
    by_cases hdep1 : signature.deposited = true
    · have hcp := chainPhase_deposited signature (appliedReserve signature req.amount)
        (pendingRow fid req env)
        (reserveSuccessDB dbA req.authorizationId
          (signature.remaining_amount - req.amount))
        (dbS ++ [pendingRow fid req env]) req env hdep1
      have hdp := disbursePhase_insufficient (appliedReserve signature req.amount)
        (pendingRow fid req env)
        (reserveSuccessDB dbA req.authorizationId
          (signature.remaining_amount - req.amount))
        (dbS ++ [pendingRow fid req env]) req env hbal hrow
      rw [hrp]
      dsimp only
      rw [hcp]
      refine ⟨hdp.1, hdp.2.1, hdp.2.2.1, ?_, hdp.2.2.2.2,
        appliedUpdate_status _ _ _ _⟩
      refine ⟨appliedReserve signature req.amount, ?_, rfl⟩
      rw [hdp.2.2.2.1]
      exact hauthLook
    · have hdep0 : signature.deposited = false := by
        cases hb : signature.deposited
        · rfl
        · exact absurd hb hdep1
      rcases hcase with hcase | ⟨hxs, hdepok⟩
      · exact absurd hcase hdep1
      rcases Option.isSome_iff_exists.mp hxs with ⟨d, hx⟩
      have hcp := chainPhase_deposit_ok signature (appliedReserve signature req.amount)
        (pendingRow fid req env)
        (reserveSuccessDB dbA req.authorizationId
          (signature.remaining_amount - req.amount))
        (dbS ++ [pendingRow fid req env]) req env d hdep0 hx hdepok
      have hdp := disbursePhase_insufficient (appliedReserve signature req.amount)
        (pendingRow fid req env)
        (markSignatureDeposited
          (reserveSuccessDB dbA req.authorizationId
            (signature.remaining_amount - req.amount)) req.authorizationId).2
        (dbS ++ [pendingRow fid req env]) req env hbal hrow
      rw [hrp]
      dsimp only
      rw [hcp]
      dsimp only
      refine ⟨hdp.1, hdp.2.1, hdp.2.2.1, ?_, hdp.2.2.2.2,
        appliedUpdate_status _ _ _ _⟩
      refine ⟨{ appliedReserve signature req.amount with deposited := true }, ?_, rfl⟩
      rw [hdp.2.2.2.1]
      exact getById_markDeposited _ req.authorizationId
        (appliedReserve signature req.amount) hauthLook
  · intro hcase hbal htr
    by_cases hdep1 : signature.deposited = true
    · have hcp := chainPhase_deposited signature (appliedReserve signature req.amount)
        (pendingRow fid req env)
        (reserveSuccessDB dbA req.authorizationId
          (signature.remaining_amount - req.amount))
        (dbS ++ [pendingRow fid req env]) req env hdep1
      have hdp := disbursePhase_transfer_fail (appliedReserve signature req.amount)
        (pendingRow fid req env)
        (reserveSuccessDB dbA req.authorizationId
          (signature.remaining_amount - req.amount))
        (dbS ++ [pendingRow fid req env]) req env hbal htr hrow
      rw [hrp]
      dsimp only
      rw [hcp]
      refine ⟨hdp.1, hdp.2.1, hdp.2.2.1, ?_, hdp.2.2.2.2,
        appliedUpdate_status _ _ _ _, appliedUpdate_error _ _ _ rfl⟩
      refine ⟨appliedReserve signature req.amount, ?_, rfl⟩
      rw [hdp.2.2.2.1]
      exact hauthLook
    · have hdep0 : signature.deposited = false := by
        cases hb : signature.deposited
        · rfl
        · exact absurd hb hdep1
      rcases hcase with hcase | ⟨hxs, hdepok⟩
      · exact absurd hcase hdep1
      rcases Option.isSome_iff_exists.mp hxs with ⟨d, hx⟩
      have hcp := chainPhase_deposit_ok signature (appliedReserve signature req.amount)
        (pendingRow fid req env)
        (reserveSuccessDB dbA req.authorizationId
          (signature.remaining_amount - req.amount))
        (dbS ++ [pendingRow fid req env]) req env d hdep0 hx hdepok
      have hdp := disbursePhase_transfer_fail (appliedReserve signature req.amount)
        (pendingRow fid req env)
        (markSignatureDeposited
          (reserveSuccessDB dbA req.authorizationId
            (signature.remaining_amount - req.amount)) req.authorizationId).2
        (dbS ++ [pendingRow fid req env]) req env hbal htr hrow
      rw [hrp]
      dsimp only
      rw [hcp]
      dsimp only
      refine ⟨hdp.1, hdp.2.1, hdp.2.2.1, ?_, hdp.2.2.2.2,
        appliedUpdate_status _ _ _ _, appliedUpdate_error _ _ _ rfl⟩
      refine ⟨{ appliedReserve signature req.amount with deposited := true }, ?_, rfl⟩
      rw [hdp.2.2.2.1]
      exact getById_markDeposited _ req.authorizationId
        (appliedReserve signature req.amount) hauthLook

/-- C5 witness: a deposit failure on the fixture strands the reservation
(remaining 150 of 200) and records the error on the settlement row. -/
theorem C5_failure_keeps_reservation_witness :
    (settle [sampleAuth] [] "fac1" sampleReq
        { sampleEnv with depositResult :=
            { success := false, transactionHash := none,
              errorMessage := some "rpc timeout" } }).resp.success = false ∧
    (settle [sampleAuth] [] "fac1" sampleReq
        { sampleEnv with depositResult :=
            { success := false, transactionHash := none,
              errorMessage := some "rpc timeout" } }).resp.remainingAmount
      = some 150 := by
  have h := (C5_failure_keeps_reservation [sampleAuth] [] "fac1" sampleReq
    { sampleEnv with depositResult :=
        { success := false, transactionHash := none,
          errorMessage := some "rpc timeout" } }
    sampleAuth (by decide) (by decide) (by decide) (by decide) (by decide)
    (by decide) (by decide) 8453 (by decide) (by decide) (by decide) (by decide)
    (by decide)).1 sampleDetails (by decide) (by decide) (by decide)
  exact ⟨h.1, h.2.1⟩

/-- C6 counterexample: `updateMultiSettleSettlementStatus` does not enforce a
one-way terminal transition: a settlement already in the terminal `success`
state is mutated (here back to `pending`), contradicting the claim that a
terminal record "is never mutated again". -/
theorem C6_counterexample :
    ¬ (∀ (db : SettleDB) (id : String) (st : SettleStatus) (tx err : Option String)
        (r : SettlementRecord),
        getMultiSettleSettlementById db id = some r →
        r.status ≠ SettleStatus.pending →
        (updateMultiSettleSettlementStatus db id st tx err).2 = db) := by
  intro h
  have h2 := h [sampleSettlement] "s1" SettleStatus.pending none none
    sampleSettlement (by decide) (by decide)
  revert h2
  decide

/-- C6 (amended): the settle route creates every settlement row in the
`pending` state before any on-chain call and updates each settlement's status
at most once, always to a non-`pending` status; `updateStatus` itself returns
`None` exactly when the record does not exist (leaving the table unchanged),
and otherwise unconditionally applies the requested status — the one-way
terminal discipline is route usage, not enforced by `updateStatus`. -/
theorem C6_settlement_lifecycle :
    (∀ (db : SettleDB) (id : String) (st : SettleStatus) (tx err : Option String),
      ((updateMultiSettleSettlementStatus db id st tx err).1 = none
        ↔ getMultiSettleSettlementById db id = none) ∧
      (getMultiSettleSettlementById db id = none →
        updateMultiSettleSettlementStatus db id st tx err = (none, db)) ∧
      (∀ r, getMultiSettleSettlementById db id = some r →
        (updateMultiSettleSettlementStatus db id st tx err).1
          = some (appliedUpdate r st tx err) ∧
        (appliedUpdate r st tx err).status = st)) ∧
    (∀ (dbA : AuthDB) (dbS : SettleDB) (fid : String) (req : SettleRequest)
        (env : SettleEnv),
      (∀ sid st, Ev.screateEv sid st ∈ (settle dbA dbS fid req env).trace →
        st = SettleStatus.pending) ∧
      (∀ sid st, Ev.supdateEv sid st ∈ (settle dbA dbS fid req env).trace →
        st ≠ SettleStatus.pending) ∧
      ((settle dbA dbS fid req env).trace.filter isUpdate).length ≤ 1 ∧
      ((∃ e ∈ (settle dbA dbS fid req env).trace, e.isChain = true) →
        (settle dbA dbS fid req env).trace[1]?
          = some (Ev.screateEv env.freshSettlementId SettleStatus.pending) ∧
        ∀ i e, (settle dbA dbS fid req env).trace[i]? = some e →
          e.isChain = true → 2 ≤ i)) := by
  constructor
  · intro db id st tx err
    cases hfind : getMultiSettleSettlementById db id with
    | none =>
      have hm := updateStatus_missing db id st tx err hfind
      refine ⟨by simp [hm], fun _ => hm, ?_⟩
      intro r hr
      exact absurd hr (by simp)
    | some r =>
      have hf := updateStatus_found db id st tx err r hfind
      refine ⟨by simp [hf], ?_, ?_⟩
      · intro hnone
        exact absurd hnone (by simp)
      · intro r' hr'
        cases hr'
        exact ⟨by rw [hf], appliedUpdate_status _ _ _ _⟩
  · intro dbA dbS fid req env
    rcases settle_trace_cases dbA dbS fid req env
      with h | ⟨h, _⟩ | ⟨upd, rest, h, hall, hcount⟩
    · rw [h]
      refine ⟨?_, ?_, by simp, ?_⟩
      · intro sid st hmem
        exact absurd hmem (List.not_mem_nil _)
      · intro sid st hmem
        exact absurd hmem (List.not_mem_nil _)
      · rintro ⟨e, hmem, _⟩
        exact absurd hmem (List.not_mem_nil _)
    · rw [h]
      refine ⟨?_, ?_, by simp [isUpdate], ?_⟩
      · intro sid st hmem
        simp only [List.mem_singleton] at hmem
        exact absurd hmem (by simp)
      · intro sid st hmem
        simp only [List.mem_singleton] at hmem
        exact absurd hmem (by simp)
      · rintro ⟨e, hmem, hchain⟩
        simp only [List.mem_singleton] at hmem
        subst hmem
        exact absurd hchain (by decide)
    · rw [h]
      refine ⟨?_, ?_, ?_, ?_⟩
      · intro sid st hmem
        simp only [List.mem_cons] at hmem
        rcases hmem with heq | heq | hmem
        · exact absurd heq (by simp)
        · cases heq
          rfl
        · rcases hall _ hmem with hchain | ⟨sid', st', _, heq⟩
          · exact absurd hchain (by simp [Ev.isChain])
          · exact absurd heq (by simp)
      · intro sid st hmem
        simp only [List.mem_cons] at hmem
        rcases hmem with heq | heq | hmem
        · exact absurd heq (by simp)
        · exact absurd heq (by simp)
        · rcases hall _ hmem with hchain | ⟨sid', st', hst', heq⟩
          · exact absurd hchain (by simp [Ev.isChain])
          · cases heq
            exact hst'
      · simp only [List.filter_cons]
        simp only [show isUpdate (Ev.reserveEv (some upd)) = false from rfl,
          show isUpdate (Ev.screateEv env.freshSettlementId SettleStatus.pending)
            = false from rfl]
        simpa using hcount
      · intro _
        refine ⟨by simp only [List.getElem?_cons_succ, List.getElem?_cons_zero], ?_⟩
        intro i e hi hchain
        match i with
        | 0 =>
          simp only [List.getElem?_cons_zero, Option.some.injEq] at hi
          subst hi
          exact absurd hchain (by simp [Ev.isChain])
        | 1 =>
          simp only [List.getElem?_cons_succ, List.getElem?_cons_zero,
            Option.some.injEq] at hi
          subst hi
          exact absurd hchain (by simp [Ev.isChain])
        | (n + 2) => omega

/-- C6 witness: updating an existing pending settlement to `success` applies
the status. -/
theorem C6_settlement_lifecycle_witness :
    (updateMultiSettleSettlementStatus
        [{ sampleSettlement with status := SettleStatus.pending }] "s1"
        SettleStatus.success (some "0xtx") none).1
      = some (appliedUpdate { sampleSettlement with status := SettleStatus.pending }
          SettleStatus.success (some "0xtx") none)
    ∧ (appliedUpdate { sampleSettlement with status := SettleStatus.pending }
        SettleStatus.success (some "0xtx") none).status = SettleStatus.success :=
  (C6_settlement_lifecycle.1
    [{ sampleSettlement with status := SettleStatus.pending }] "s1"
    SettleStatus.success (some "0xtx") none).2.2
    { sampleSettlement with status := SettleStatus.pending } (by decide)

theorem authorize_fresh (db : AuthDB) (fid : String) (req : AuthorizeRequest)
    (env : AuthorizeEnv) (d : AuthDetails)
    (hv : env.verifyValid = true) (hdet : env.details = some d)
    (hmiss : getMultiSettleSignatureByNonce db fid d.nonce = none)
    (hfut : ¬ req.validUntil ≤ env.now) (hval : d.value = req.capAmount)
    (hfresh : getMultiSettleSignatureById db env.freshId = none) :
    authorize db fid req env
      = ({ success := true
           errorMessage := none
           authorizationId := some env.freshId
           capAmount := some req.capAmount
           remainingAmount := some req.capAmount
           validUntil := some req.validUntil
           nonce := some d.nonce
           deposited := some false },
         db ++ [createdRow env.freshId (authCreateData fid req d env)]) := by
  unfold authorize
  rw [if_neg (by simp [hv]), hdet]
  dsimp only
  rw [hmiss]
  dsimp only
  rw [if_neg hfut, if_neg (by simp [hval])]
  rw [create_fresh db env.freshId (authCreateData fid req d env) hfresh]
  rfl

/-- C7: when an authorization already exists for (facilitator, nonce): if it is
still active, `authorize` returns the same authorizationId with success and
does not modify the table (no second record); if it is in a non-active state,
the call is rejected with an error naming that status.  In particular, calling
`authorize` twice with the same nonce (the first call creating the record)
returns the first call's id and leaves the table unchanged. -/
theorem C7_idempotent_authorize (db : AuthDB) (fid : String)
    (req : AuthorizeRequest) (env : AuthorizeEnv) (d : AuthDetails)
    (hv : env.verifyValid = true) (hdet : env.details = some d) :
    (∀ ex, getMultiSettleSignatureByNonce db fid d.nonce = some ex →
      (ex.status = AuthStatus.active →
        (authorize db fid req env).1.success = true ∧
        (authorize db fid req env).1.authorizationId = some ex.id ∧
        (authorize db fid req env).2 = db) ∧
      (ex.status ≠ AuthStatus.active →
        (authorize db fid req env).1.success = false ∧
        (authorize db fid req env).1.errorMessage
          = some ("Authorization with this nonce already exists and is "
              ++ statusStr ex.status) ∧
        (authorize db fid req env).2 = db)) ∧
    (getMultiSettleSignatureByNonce db fid d.nonce = none →
      ¬ req.validUntil ≤ env.now → d.value = req.capAmount →
      getMultiSettleSignatureById db env.freshId = none →
      ∀ (req2 : AuthorizeRequest) (env2 : AuthorizeEnv) (d2 : AuthDetails),
        env2.verifyValid = true → env2.details = some d2 → d2.nonce = d.nonce →
        (authorize db fid req env).1.authorizationId = some env.freshId ∧
        (authorize (authorize db fid req env).2 fid req2 env2).1.success = true ∧
        (authorize (authorize db fid req env).2 fid req2 env2).1.authorizationId
          = some env.freshId ∧
        (authorize (authorize db fid req env).2 fid req2 env2).2
          = (authorize db fid req env).2) := by
  constructor
  · intro ex hex
    constructor
    · intro hact
      unfold authorize
      rw [if_neg (by simp [hv]), hdet]
      dsimp only
      rw [hex]
      dsimp only
      rw [if_pos hact]
      exact ⟨rfl, rfl, rfl⟩
    · intro hnact
      unfold authorize
      rw [if_neg (by simp [hv]), hdet]
      dsimp only
      rw [hex]
      dsimp only
      rw [if_neg hnact]
      exact ⟨rfl, rfl, rfl⟩
  · intro hmiss hfut hval hfresh req2 env2 d2 hv2 hdet2 hn2
    have h1 := authorize_fresh db fid req env d hv hdet hmiss hfut hval hfresh
    have hex2 : getMultiSettleSignatureByNonce
        (db ++ [createdRow env.freshId (authCreateData fid req d env)]) fid d2.nonce
        = some (createdRow env.freshId (authCreateData fid req d env)) := by
      rw [hn2]
      exact getByNonce_append db fid d.nonce _ hmiss rfl rfl
    refine ⟨by rw [h1], ?_, ?_, ?_⟩
    all_goals
      rw [h1]
      dsimp only
      unfold authorize
      rw [if_neg (by simp [hv2]), hdet2]
      dsimp only
      rw [hex2]
      dsimp only
      rw [if_pos (show (createdRow env.freshId (authCreateData fid req d env)).status
        = AuthStatus.active from rfl)]
      try rfl

/-- C7 witness: authorize on an empty table creates `auth1`; replaying the same
request returns the same id and leaves the table unchanged. -/
theorem C7_idempotent_authorize_witness :
    (authorize [] "fac1" sampleAuthReq sampleAuthEnv).1.authorizationId
      = some "auth1"
    ∧ (authorize (authorize [] "fac1" sampleAuthReq sampleAuthEnv).2 "fac1"
        sampleAuthReq sampleAuthEnv).1.success = true
    ∧ (authorize (authorize [] "fac1" sampleAuthReq sampleAuthEnv).2 "fac1"
        sampleAuthReq sampleAuthEnv).1.authorizationId = some "auth1"
    ∧ (authorize (authorize [] "fac1" sampleAuthReq sampleAuthEnv).2 "fac1"
        sampleAuthReq sampleAuthEnv).2
      = (authorize [] "fac1" sampleAuthReq sampleAuthEnv).2 :=
  (C7_idempotent_authorize [] "fac1" sampleAuthReq sampleAuthEnv sampleDetails
    (by decide) (by decide)).2 (by decide) (by decide) (by decide) (by decide)
    sampleAuthReq sampleAuthEnv sampleDetails (by decide) (by decide) (by decide)

/-- C8: revoke transitions only active records to `revoked` (returning false
and leaving the table unchanged when no active record with that id exists) and
never changes the remaining amount; after a successful revoke, every settle
against that id fails with the terminal-status error "Authorization is
revoked", regardless of the remaining balance. -/
theorem C8_revocation_blocks (db : AuthDB) (id : String) :
    (∀ r, getMultiSettleSignatureById db id = some r →
      r.status = AuthStatus.active →
      (revokeMultiSettleSignature db id).1 = true ∧
      getMultiSettleSignatureById (revokeMultiSettleSignature db id).2 id
        = some ({ r with status := AuthStatus.revoked }) ∧
      ({ r with status := AuthStatus.revoked }).remaining_amount
        = r.remaining_amount ∧
      (∀ (dbS : SettleDB) (req : SettleRequest) (env : SettleEnv),
        req.authorizationId = id →
        (settle (revokeMultiSettleSignature db id).2 dbS r.facilitator_id req
          env).resp.success = false ∧
        (settle (revokeMultiSettleSignature db id).2 dbS r.facilitator_id req
          env).resp.errorMessage = some "Authorization is revoked")) ∧
    ((∀ s ∈ db, s.id = id → s.status ≠ AuthStatus.active) →
      (revokeMultiSettleSignature db id).1 = false ∧
      (revokeMultiSettleSignature db id).2 = db) := by
  constructor
  · intro r hr hact
    have hflag := revoke_flag_of_active db id r hr hact
    have hlook := getById_revoke db id r hr
    rw [if_pos hact] at hlook
    refine ⟨hflag, hlook, rfl, ?_⟩
    intro dbS req env hreq
    subst hreq
    unfold settle
    rw [hlook]
    dsimp only
    rw [if_neg (by simp), if_pos (by simp)]
    exact ⟨rfl, rfl⟩
  · intro hno
    exact ⟨revoke_flag_of_inactive db id hno, revoke_db_of_inactive db id hno⟩

/-- C8 witness: revoking the active fixture succeeds and a subsequent settle is
rejected as revoked while remaining is still 200. -/
theorem C8_revocation_blocks_witness :
    (revokeMultiSettleSignature [sampleAuth] "auth1").1 = true ∧
    (settle (revokeMultiSettleSignature [sampleAuth] "auth1").2 [] "fac1"
      sampleReq sampleEnv).resp.success = false ∧
    (settle (revokeMultiSettleSignature [sampleAuth] "auth1").2 [] "fac1"
      sampleReq sampleEnv).resp.errorMessage
      = some "Authorization is revoked" := by
  have h := (C8_revocation_blocks [sampleAuth] "auth1").1 sampleAuth
    (by decide) (by decide)
  have h2 := h.2.2.2 [] sampleReq sampleEnv (by decide)
  exact ⟨h.1, h2.1, h2.2⟩

/-- C9 counterexample: the nonce-idempotency check precedes the validity
checks.  With an existing active authorization for nonce `n1`, a request whose
validUntil (5) is not in the future (now 10) and whose payload value (99)
differs from the capAmount (500) is still answered with success (idempotent
replay) instead of being rejected as the claim states. -/
theorem C9_counterexample :
    (authorize [sampleAuth] "fac1"
        { capAmount := 500, validUntil := 5, network := "base", asset := "0xusdc" }
        { verifyValid := true
          invalidReason := none
          details := some { from_addr := "0xPayer", to_addr := "0xFac",
                            nonce := "n1", value := 99, signature := "sig1" }
          payloadStr := "pp1"
          now := 10
          freshId := "authX" }).1.success = true
    ∧ (5 : Int) ≤ 10 ∧ (99 : Int) ≠ 500 := by
  decide

/-- C9 (amended): for a fresh (facilitator, nonce) — no existing record —
authorize rejects when validUntil is not strictly in the future
(`validUntil ≤ now`), rejects when the payload's transfer value differs from
capAmount, and otherwise creates a record with remaining = cap, status
`active`, deposited false.  (The nonce-idempotency check precedes these
validations, so an existing active nonce is replayed without them.) -/
theorem C9_authorize_validation (db : AuthDB) (fid : String)
    (req : AuthorizeRequest) (env : AuthorizeEnv) (d : AuthDetails)
    (hv : env.verifyValid = true) (hdet : env.details = some d)
    (hmiss : getMultiSettleSignatureByNonce db fid d.nonce = none) :
    (req.validUntil ≤ env.now →
      (authorize db fid req env).1.success = false ∧
      (authorize db fid req env).1.errorMessage
        = some "validUntil must be in the future" ∧
      (authorize db fid req env).2 = db) ∧
    (¬ req.validUntil ≤ env.now → d.value ≠ req.capAmount →
      (authorize db fid req env).1.success = false ∧
      (authorize db fid req env).1.errorMessage
        = some ("Cap amount (" ++ toString req.capAmount
            ++ ") must match authorization value (" ++ toString d.value ++ ")") ∧
      (authorize db fid req env).2 = db) ∧
    (¬ req.validUntil ≤ env.now → d.value = req.capAmount →
      getMultiSettleSignatureById db env.freshId = none →
      (authorize db fid req env).1.success = true ∧
      (authorize db fid req env).1.remainingAmount = some req.capAmount ∧
      getMultiSettleSignatureById (authorize db fid req env).2 env.freshId
        = some (createdRow env.freshId (authCreateData fid req d env)) ∧
      (createdRow env.freshId (authCreateData fid req d env)).remaining_amount
        = req.capAmount ∧
      (createdRow env.freshId (authCreateData fid req d env)).cap_amount
        = req.capAmount ∧
      (createdRow env.freshId (authCreateData fid req d env)).status
        = AuthStatus.active ∧
      (createdRow env.freshId (authCreateData fid req d env)).deposited
        = false) := by
  refine ⟨?_, ?_, ?_⟩
  · intro hle
    unfold authorize
    rw [if_neg (by simp [hv]), hdet]
    dsimp only
    rw [hmiss]
    dsimp only
    rw [if_pos hle]
    exact ⟨rfl, rfl, rfl⟩
  · intro hfut hne
    unfold authorize
    rw [if_neg (by simp [hv]), hdet]
    dsimp only
    rw [hmiss]
    dsimp only
    rw [if_neg hfut, if_pos (by simp [hne])]
    exact ⟨rfl, rfl, rfl⟩
  · intro hfut hval hfresh
    have h1 := authorize_fresh db fid req env d hv hdet hmiss hfut hval hfresh
    rw [h1]
    refine ⟨rfl, rfl, ?_, rfl, rfl, rfl, rfl⟩
    exact congrArg Prod.fst
      (create_fresh db env.freshId (authCreateData fid req d env) hfresh)

/-- C9 witness: the creation clause on the fixture request (cap 200, validUntil
1000 > now 10, matching value). -/
theorem C9_authorize_validation_witness :
    (authorize [] "fac1" sampleAuthReq sampleAuthEnv).1.success = true
    ∧ (authorize [] "fac1" sampleAuthReq sampleAuthEnv).1.remainingAmount
      = some 200 := by
  have h := (C9_authorize_validation [] "fac1" sampleAuthReq sampleAuthEnv
    sampleDetails (by decide) (by decide) (by decide)).2.2
    (by decide) (by decide) (by decide)
  exact ⟨h.1, h.2.1⟩

/-- C10 counterexample: on an active, unexpired authorization with remaining 0
(cap 0), a reserve of amount "0" succeeds but flips the status to `exhausted`,
not "still active" as the claim states for every active, unexpired
authorization. -/
theorem C10_counterexample :
    ((decrementRemainingAmount
        [{ sampleAuth with cap_amount := 0, remaining_amount := 0 }] 10
        "auth1" 0).1.map (fun r => r.status)) = some AuthStatus.exhausted
    ∧ AuthStatus.exhausted ≠ AuthStatus.active := by
  decide

/-- C10 (amended): the store's reserve operation does not require the amount to
be positive.  On an active, unexpired authorization with nonnegative
remaining: a reserve of 0 succeeds and leaves remaining unchanged, with status
still `active` when remaining is nonzero (and `exhausted` when remaining is
zero); a reserve of a negative amount succeeds, strictly increases remaining,
and leaves the status `active`.  The `amount > 0` check exists only in the
HTTP settle route, which rejects a non-positive amount before the reserve call
(empty trace, stores untouched). -/
theorem C10_nonpositive_amounts (db : AuthDB) (now : Int) (id : String)
    (r : AuthRecord) (hr : getMultiSettleSignatureById db id = some r)
    (hs : r.status = AuthStatus.active) (he : ¬ r.valid_until < now)
    (h0 : 0 ≤ r.remaining_amount) :
    ((decrementRemainingAmount db now id 0).1 = some (appliedReserve r 0) ∧
      (appliedReserve r 0).remaining_amount = r.remaining_amount ∧
      (r.remaining_amount ≠ 0 →
        (appliedReserve r 0).status = AuthStatus.active) ∧
      (r.remaining_amount = 0 →
        (appliedReserve r 0).status = AuthStatus.exhausted)) ∧
    (∀ a : Int, a < 0 →
      (decrementRemainingAmount db now id a).1 = some (appliedReserve r a) ∧
      (appliedReserve r a).remaining_amount = r.remaining_amount - a ∧
      r.remaining_amount < (appliedReserve r a).remaining_amount ∧
      (appliedReserve r a).status = AuthStatus.active) ∧
    (∀ (dbS : SettleDB) (fid : String) (req : SettleRequest) (env : SettleEnv),
      req.authorizationId = id → req.amount ≤ 0 → fid = r.facilitator_id →
      ¬ r.valid_until < env.nowPre →
      (settle db dbS fid req env).resp.success = false ∧
      (settle db dbS fid req env).resp.errorMessage
        = some "Amount must be greater than 0" ∧
      (settle db dbS fid req env).trace = [] ∧
      (settle db dbS fid req env).dbA = db ∧
      (settle db dbS fid req env).dbS = dbS) := by
  refine ⟨?_, ?_, ?_⟩
  · have hd := decrement_success db now id 0 r hr hs he h0
    refine ⟨by rw [hd], by unfold appliedReserve; dsimp only; omega, ?_, ?_⟩
    · intro hnz
      unfold appliedReserve
      dsimp only
      rw [if_neg (show ¬ ((r.remaining_amount - 0 == 0) = true) by
        simp only [beq_iff_eq]; omega)]
      exact hs
    · intro hz
      unfold appliedReserve
      dsimp only
      rw [if_pos (show ((r.remaining_amount - 0 == 0) = true) by
        simp only [beq_iff_eq]; omega)]
  · intro a ha
    have hle : a ≤ r.remaining_amount := by omega
    have hd := decrement_success db now id a r hr hs he hle
    refine ⟨by rw [hd], rfl,
      by unfold appliedReserve; dsimp only; omega, ?_⟩
    unfold appliedReserve
    dsimp only
    rw [if_neg (show ¬ ((r.remaining_amount - a == 0) = true) by
      simp only [beq_iff_eq]; omega)]
    exact hs
  · intro dbS fid req env hid hamt hfid hexp
    subst hid
    subst hfid
    unfold settle
    rw [hr]
    dsimp only
    rw [if_neg (by simp), if_neg (by simp [hs]), if_neg hexp,
      if_neg (show ¬ r.remaining_amount < req.amount by omega), if_pos hamt]
    exact ⟨rfl, rfl, rfl, rfl, rfl⟩

/-- C10 witness: reserve of 0 and of -5 on the fixture (remaining 200) both
succeed; the negative reserve raises remaining to 205. -/
theorem C10_nonpositive_amounts_witness :
    (decrementRemainingAmount [sampleAuth] 10 "auth1" 0).1
      = some (appliedReserve sampleAuth 0)
    ∧ (decrementRemainingAmount [sampleAuth] 10 "auth1" (-5)).1
      = some (appliedReserve sampleAuth (-5))
    ∧ (appliedReserve sampleAuth (-5)).remaining_amount = 205 := by
  have h := C10_nonpositive_amounts [sampleAuth] 10 "auth1" sampleAuth
    (by decide) (by decide) (by decide) (by decide)
  exact ⟨h.1.1, (h.2.1 (-5) (by decide)).1, by decide⟩

end OpenFacilitator
